import Mathlib

/-!
Verification of the bridge-plugin core of `rancher-cni-bridge` (`utils.go`).

The development shallowly embeds the Go source into Lean:

* IP addresses follow the Go `net` package representation: a byte slice,
  modelled as `List Nat` with every byte reduced modulo 256 at the points
  where Go byte arithmetic can wrap.  `IPNet` pairs an address with a mask.
* the textual parsers (`net.ParseIP`, `net.ParseCIDR`, `net.ParseMAC`) are
  modelled from the Go standard library, restricted to the address forms
  without zone suffixes and without dotted-quad groups embedded in IPv6
  literals; these restrictions are irrelevant to the code under study.
* the netlink/kernel surface (`LinkByName`, `LinkAdd`, `AddrAdd`, `RouteAdd`,
  ...) is modelled as a deterministic state machine over a `World` of links,
  addresses and routes; each primitive either fails (leaving the world
  unchanged) or succeeds with the usual kernel semantics (duplicate links and
  addresses yield `EEXIST`, missing devices yield a lookup failure, a route
  whose gateway is not on a connected subnet is unreachable).
* each function of `utils.go` is translated over that state, preserving its
  control flow, error wrapping and error-classification tests; a Go runtime
  panic (nil-slice indexing) is an explicit `GoResult.panic` outcome.
-/

set_option maxRecDepth 4000

namespace Rcb

/-! ## Byte-level IP model (Go `net` package) -/

/-- IP address as in Go `net.IP`: a byte slice (4-byte or 16-byte form). -/
abbrev GoIP := List Nat

/-- IP mask as in Go `net.IPMask`: a byte slice. -/
abbrev GoIPMask := List Nat

/-- Twelve-byte header of the IPv4-in-IPv6 mapped form (`v4InV6Prefix` in Go,
ten zero bytes followed by two `0xff` bytes). -/
def v4MappedHeader : List Nat := [0, 0, 0, 0, 0, 0, 0, 0, 0, 0, 255, 255]

/-- Go `net.IPv4 a b c d`: the 16-byte IPv4-in-IPv6 representation.  Arguments
are bytes; the reduction modulo 256 models Go's wrapping byte arithmetic at
the call sites (`brNetworkIPTo4[3]+1` in `calculateBridgeIP`). -/
def ipv4 (a b c d : Nat) : GoIP :=
  v4MappedHeader ++ [a % 256, b % 256, c % 256, d % 256]

/-- Go `isZeros`. -/
def isZeros (l : List Nat) : Bool := l.all (· == 0)

/-- Go `IP.To4`: the 4-byte form of an IPv4 address, `none` (Go `nil`) for a
16-byte address that is not IPv4-mapped. -/
def to4 (ip : GoIP) : Option GoIP :=
  if ip.length == 4 then some ip
  else if ip.length == 16 && isZeros (ip.take 10)
          && ip.getD 10 0 == 255 && ip.getD 11 0 == 255 then
    some (ip.drop 12)
  else none

/-- Check that every byte is `0xff` (Go `allFF`). -/
def allFF (l : List Nat) : Bool := l.all (· == 255)

/-- Go `IP.Mask`: apply a mask to an address, adapting mixed 4-byte/16-byte
representations; the empty list models Go's `nil` result on length mismatch. -/
def maskOp (ip : GoIP) (mask : GoIPMask) : GoIP :=
  let mask := if mask.length == 16 && ip.length == 4 && allFF (mask.take 12)
              then mask.drop 12 else mask
  let ip := if mask.length == 4 && ip.length == 16 && ip.take 12 == v4MappedHeader
            then ip.drop 12 else ip
  if ip.length == mask.length then List.zipWith (fun a b => a &&& b) ip mask
  else []

/-- Byte with `k` leading one bits (`0 ≤ k ≤ 8`). -/
def onesByte (k : Nat) : Nat := 256 - 2 ^ (8 - k)

/-- Go `CIDRMask ones bits`: mask of `bits/8` bytes with `ones` leading ones. -/
def cidrMask (ones bits : Nat) : GoIPMask :=
  (List.range (bits / 8)).map (fun i =>
    if 8 * i + 8 ≤ ones then 255
    else if ones ≤ 8 * i then 0
    else onesByte (ones - 8 * i))

/-- Number of leading one bits of a byte of the form `1^k 0^(8-k)`, `none` for
any other byte (the inner loop of Go `simpleMaskLength`). -/
def byteLeadingOnes (v : Nat) : Option Nat :=
  if v == 0 then some 0 else if v == 128 then some 1 else if v == 192 then some 2
  else if v == 224 then some 3 else if v == 240 then some 4 else if v == 248 then some 5
  else if v == 252 then some 6 else if v == 254 then some 7 else if v == 255 then some 8
  else none

/-- Go `simpleMaskLength`: leading-ones count of a contiguous mask, `none` for
a non-contiguous mask (Go returns `-1`). -/
def simpleMaskLength : List Nat → Option Nat
  | [] => some 0
  | b :: rest =>
    match byteLeadingOnes b with
    | none => none
    | some 8 => (simpleMaskLength rest).map (8 + ·)
    | some k => if isZeros rest then some k else none

/-- Lowercase hexadecimal digit. -/
def hexDigitChar (n : Nat) : Char :=
  if n < 10 then Char.ofNat (48 + n) else Char.ofNat (87 + (n % 16))

/-- Two-digit lowercase hexadecimal rendering of a byte. -/
def hexByteStr (b : Nat) : String :=
  String.mk [hexDigitChar ((b / 16) % 16), hexDigitChar (b % 16)]

/-- Hexadecimal rendering of a byte string (Go `IPMask.String`). -/
def hexStr (l : List Nat) : String := String.join (l.map hexByteStr)

/-- Go `IP.String`, restricted to the forms reachable in this code: dotted
decimal for IPv4 addresses; 16-byte addresses are rendered as colon-separated
hexadecimal groups (the model does not compress zero runs as Go does, which
keeps the rendering injective, the only property the source relies on). -/
def ipString (ip : GoIP) : String :=
  match to4 ip with
  | some [a, b, c, d] =>
      toString a ++ "." ++ toString b ++ "." ++ toString c ++ "." ++ toString d
  | _ =>
      if ip.length == 16 then
        String.intercalate ":" ((List.range 8).map (fun i =>
          hexByteStr (ip.getD (2 * i) 0) ++ hexByteStr (ip.getD (2 * i + 1) 0)))
      else "?" ++ hexStr ip

/-- Go `net.IPNet`: address plus mask. -/
structure IPNet where
  ip : GoIP
  mask : GoIPMask
deriving DecidableEq

/-- Go `IPNet.String`: `addr/prefixlen`, falling back to a hexadecimal mask
rendering for a non-contiguous mask. -/
def ipnetString (n : IPNet) : String :=
  match simpleMaskLength n.mask with
  | some l => ipString n.ip ++ "/" ++ toString l
  | none => ipString n.ip ++ "/" ++ hexStr n.mask

/-- Go `networkNumberAndMask`: normalised network address and mask of an
`IPNet`, `none` when the representation is inconsistent. -/
def networkNumberAndMask (n : IPNet) : Option (GoIP × GoIPMask) :=
  match to4 n.ip with
  | some ip4 =>
    match n.mask.length with
    | 4 => some (ip4, n.mask)
    | 16 => some (ip4, n.mask.drop 12)
    | _ => none
  | none =>
    if n.ip.length != 16 then none
    else match n.mask.length with
    | 4 => none
    | 16 => some (n.ip, n.mask)
    | _ => none

/-- Go `IPNet.Contains`. -/
def contains (n : IPNet) (ip : GoIP) : Bool :=
  match networkNumberAndMask n with
  | none => false
  | some (nn, m) =>
    let ip := match to4 ip with | some x => x | none => ip
    ip.length == nn.length &&
      (List.range ip.length).all (fun i =>
        (ip.getD i 0) &&& (m.getD i 0) == (nn.getD i 0) &&& (m.getD i 0))

/-! ## Textual parsers (modelled from the Go standard library) -/

/-- Decimal digit test on a character. -/
def isDigitC (c : Char) : Bool := 48 ≤ c.toNat && c.toNat ≤ 57

/-- Hexadecimal digit value of a character, `none` for a non-hex character. -/
def hexVal (c : Char) : Option Nat :=
  if 48 ≤ c.toNat && c.toNat ≤ 57 then some (c.toNat - 48)
  else if 97 ≤ c.toNat && c.toNat ≤ 102 then some (c.toNat - 87)
  else if 65 ≤ c.toNat && c.toNat ≤ 70 then some (c.toNat - 55)
  else none

/-- Split a character list on a separator character; like Go field splitting,
`n+1` groups for `n` separators, groups may be empty. -/
def splitOnCharL (c : Char) : List Char → List (List Char)
  | [] => [[]]
  | x :: xs =>
    if x == c then [] :: splitOnCharL c xs
    else
      match splitOnCharL c xs with
      | g :: gs => (x :: g) :: gs
      | [] => [[x]]

/-- Decimal number from a nonempty all-digit character list (Go `dtoi`
restricted to a full-field parse), `none` otherwise. -/
def decValue : List Char → Option Nat
  | [] => none
  | cs =>
    if cs.all isDigitC then
      some (cs.foldl (fun n c => n * 10 + (c.toNat - 48)) 0)
    else none

/-- Go `parseIPv4`: dotted decimal with four fields of at most 255 each,
yielding the 16-byte mapped representation. -/
def parseIPv4 (s : String) : Option GoIP :=
  match splitOnCharL '.' s.data with
  | [a, b, c, d] =>
    match decValue a, decValue b, decValue c, decValue d with
    | some a', some b', some c', some d' =>
      if a' ≤ 255 && b' ≤ 255 && c' ≤ 255 && d' ≤ 255 then
        some (ipv4 a' b' c' d')
      else none
    | _, _, _, _ => none
  | _ => none

/-- Split an IPv6 literal at its first `::`, returning the part before it and,
when a `::` is present, the part after it. -/
def splitDoubleColon : List Char → List Char × Option (List Char)
  | ':' :: ':' :: rest => ([], some rest)
  | [] => ([], none)
  | x :: xs =>
    let p := splitDoubleColon xs
    (x :: p.1, p.2)

/-- Hexadecimal group of one to four digits (an IPv6 hextet). -/
def hexGroup (cs : List Char) : Option Nat :=
  if cs.length == 0 || 4 < cs.length then none
  else (cs.mapM hexVal).map (fun ds => ds.foldl (fun n d => n * 16 + d) 0)

/-- Bytes of a list of hextets (big-endian within each group). -/
def groupBytes (gs : List Nat) : List Nat :=
  gs.flatMap (fun g => [(g / 256) % 256, g % 256])

/-- Go `parseIPv6`, restricted to colon-hexadecimal forms (no embedded dotted
quad, no zone): eight groups, or fewer with one `::` filling the gap. -/
def parseIPv6 (s : String) : Option GoIP :=
  let p := splitDoubleColon s.data
  match p.2 with
  | none =>
    let parts := splitOnCharL ':' p.1
    if parts.length == 8 then
      (parts.mapM hexGroup).map groupBytes
    else none
  | some r =>
    let lp := if p.1.isEmpty then [] else splitOnCharL ':' p.1
    let rp := if r.isEmpty then [] else splitOnCharL ':' r
    match lp.mapM hexGroup, rp.mapM hexGroup with
    | some lg, some rg =>
      if lg.length + rg.length ≤ 7 then
        some (groupBytes lg ++ List.replicate (2 * (8 - lg.length - rg.length)) 0
              ++ groupBytes rg)
      else none
    | _, _ => none

/-- Go `net.ParseIP`: dispatch on the first `.` or `:`. -/
def parseIP (s : String) : Option GoIP :=
  match s.data.find? (fun c => c == '.' || c == ':') with
  | some c => if c == '.' then parseIPv4 s else parseIPv6 s
  | none => none

/-- Go `net.ParseCIDR`: `addr/prefixlen`; returns the unmasked address and the
network (masked address with its mask), `none` on any parse failure. -/
def parseCIDR (s : String) : Option (GoIP × IPNet) :=
  match splitOnCharL '/' s.data with
  | [addrCs, maskCs] =>
    let addr : String := String.mk addrCs
    let ipAndLen : Option GoIP × Nat :=
      match parseIPv4 addr with
      | some ip => (some ip, 4)
      | none => (parseIPv6 addr, 16)
    match ipAndLen.1, decValue maskCs with
    | some ip, some n =>
      if n ≤ 8 * ipAndLen.2 then
        let m := cidrMask n (8 * ipAndLen.2)
        some (ip, ⟨maskOp ip m, m⟩)
      else none
    | _, _ => none
  | _ => none

/-- Two-hex-digit byte. -/
def hexByteVal (cs : List Char) : Option Nat :=
  match cs with
  | [h, l] =>
    match hexVal h, hexVal l with
    | some h', some l' => some (16 * h' + l')
    | _, _ => none
  | _ => none

/-- Go `net.ParseMAC`, restricted to the colon- and hyphen-separated
two-digit-group forms (EUI-48 and EUI-64); other inputs are malformed. -/
def parseMAC (s : String) : Option (List Nat) :=
  let viaSep (sep : Char) : Option (List Nat) :=
    let parts := splitOnCharL sep s.data
    if parts.length == 6 || parts.length == 8 then parts.mapM hexByteVal
    else none
  if s.data.contains ':' then viaSep ':'
  else if s.data.contains '-' then viaSep '-'
  else none

/-! ## Netlink world model

The kernel's link state is a deterministic state machine.  Every primitive
returns its result together with the world after the call; a failing call
leaves the world unchanged. -/

/-- Kind of a kernel link. -/
inductive LinkKind where
  | bridge
  | veth
  | device
deriving DecidableEq

/-- Kernel link: netlink identifies links by interface index, looks them up by
name, and carries the attributes used by the source. -/
structure Link where
  index : Nat := 0
  name : String := ""
  kind : LinkKind := .device
  mtu : Int := 0
  txqlen : Int := 0
  up : Bool := false
  master : Option Nat := none
  hairpin : Bool := false
  hwaddr : Option (List Nat) := none
  addrs : List IPNet := []
deriving DecidableEq

/-- Kernel route entry. -/
structure KRoute where
  dst : IPNet
  gw : GoIP
  linkIndex : Nat
deriving DecidableEq

/-- Kernel networking state of one namespace. -/
structure World where
  links : List Link := []
  routes : List KRoute := []
  nextIndex : Nat := 1
deriving DecidableEq

/-- Errors of the netlink layer. -/
inductive NLError where
  | eexist
  | enoent
  | emsg (s : String)
deriving DecidableEq

/-- Result of a netlink primitive. -/
inductive NLResult (α : Type) where
  | ok (a : α)
  | error (e : NLError)
deriving DecidableEq

/-- Go `err.Error()` for the modelled errors (`syscall.EEXIST.Error()` is
`"file exists"`, which `configureInterface` compares against). -/
def errString : NLError → String
  | .eexist => "file exists"
  | .enoent => "no such file or directory"
  | .emsg s => s

/-- Go `os.IsExist`: true exactly for the `EEXIST` class. -/
def osIsExist : NLError → Bool
  | .eexist => true
  | _ => false

/-- First link with the given name. -/
def findLinkByName (w : World) (name : String) : Option Link :=
  w.links.find? (fun l => l.name == name)

/-- First link with the given interface index. -/
def findLinkByIndex (w : World) (i : Nat) : Option Link :=
  w.links.find? (fun l => l.index == i)

/-- Rewrite every link carrying the given index. -/
def updateLink (w : World) (i : Nat) (f : Link → Link) : World :=
  { w with links := w.links.map (fun l => if l.index == i then f l else l) }

/-- `netlink.LinkByName`. -/
def linkByName (w : World) (name : String) : NLResult Link :=
  match findLinkByName w name with
  | some l => .ok l
  | none => .error .enoent

/-- `netlink.LinkAdd`: creating a link whose name is taken fails with
`EEXIST`; otherwise the kernel assigns the next free interface index. -/
def linkAdd (w : World) (l : Link) : World × NLResult Link :=
  match findLinkByName w l.name with
  | some _ => (w, .error .eexist)
  | none =>
    let l' := { l with index := w.nextIndex }
    ({ w with links := w.links ++ [l'], nextIndex := w.nextIndex + 1 }, .ok l')

/-- `netlink.LinkSetUp`, keyed by the handle's interface index. -/
def linkSetUp (w : World) (l : Link) : World × NLResult Unit :=
  match findLinkByIndex w l.index with
  | some _ => (updateLink w l.index (fun x => { x with up := true }), .ok ())
  | none => (w, .error .enoent)

/-- `netlink.AddrList` for `AF_INET`, keyed by the handle's index. -/
def addrList (w : World) (l : Link) : NLResult (List IPNet) :=
  match findLinkByIndex w l.index with
  | some x => .ok x.addrs
  | none => .error .enoent

/-- `netlink.AddrAdd`: adding an address the device already carries (the
kernel compares the canonical form, modelled by the rendered CIDR string)
fails with `EEXIST`. -/
def addrAdd (w : World) (l : Link) (ipn : IPNet) : World × NLResult Unit :=
  match findLinkByIndex w l.index with
  | none => (w, .error .enoent)
  | some x =>
    if x.addrs.any (fun a => ipnetString a == ipnetString ipn) then
      (w, .error .eexist)
    else
      (updateLink w l.index (fun y => { y with addrs := y.addrs ++ [ipn] }), .ok ())

/-- `ip.AddRoute` (CNI `pkg/ip`, a `netlink.RouteAdd` on the link): fails on a
missing device; a gateway on no connected subnet of the device is unreachable;
a second route to an already-present destination fails with `EEXIST`. -/
def routeAdd (w : World) (dst : IPNet) (gw : GoIP) (l : Link) : World × NLResult Unit :=
  match findLinkByIndex w l.index with
  | none => (w, .error (.emsg "no such device"))
  | some x =>
    if !(x.addrs.any (fun a => contains a gw)) then
      (w, .error (.emsg "network is unreachable"))
    else if w.routes.any (fun r => ipnetString r.dst == ipnetString dst) then
      (w, .error .eexist)
    else
      ({ w with routes := w.routes ++ [⟨dst, gw, l.index⟩] }, .ok ())

/-- `netlink.LinkSetMaster`: both the port and the master must exist and the
master must be a bridge. -/
def linkSetMaster (w : World) (l : Link) (master : Link) : World × NLResult Unit :=
  match findLinkByIndex w l.index, findLinkByIndex w master.index with
  | some _, some m =>
    if m.kind == .bridge then
      (updateLink w l.index (fun x => { x with master := some master.index }), .ok ())
    else (w, .error (.emsg "operation not supported"))
  | _, _ => (w, .error .enoent)

/-- `netlink.LinkSetHairpin`, keyed by the handle's index. -/
def linkSetHairpin (w : World) (l : Link) (mode : Bool) : World × NLResult Unit :=
  match findLinkByIndex w l.index with
  | some _ => (updateLink w l.index (fun x => { x with hairpin := mode }), .ok ())
  | none => (w, .error .enoent)

/-- `netlink.LinkSetHardwareAddr`, keyed by the handle's index. -/
def linkSetHardwareAddr (w : World) (l : Link) (hw : List Nat) : World × NLResult Unit :=
  match findLinkByIndex w l.index with
  | some _ => (updateLink w l.index (fun x => { x with hwaddr := some hw }), .ok ())
  | none => (w, .error .enoent)

/-- Named network namespaces of the host: path to kernel state. -/
abbrev Namespaces := List (String × World)

/-! ## Repository data types (`NetConf`, `CmdArgs`, IPAM result) -/

/-- Repository `NetConf` (the fields the core reads). -/
structure NetConf where
  BrName : String := ""
  BrSubnet : String := ""
  BrIP : String := ""
  MTU : Int := 0
deriving DecidableEq

/-- CNI `skel.CmdArgs` (the fields the core reads). -/
structure CmdArgs where
  Netns : String := ""
  IfName : String := ""
deriving DecidableEq

/-- CNI `types.Route`: destination plus optional gateway (`nil` = absent). -/
structure CniRoute where
  Dst : IPNet
  GW : Option GoIP := none
deriving DecidableEq

/-- CNI `types.IPConfig` for IPv4. -/
structure IP4Config where
  IP : IPNet
  Gateway : GoIP := []
  Routes : List CniRoute := []
deriving DecidableEq

/-- CNI `types.Result` (IPv4 part; the source reads only `IP4`). -/
structure CniResult where
  IP4 : IP4Config
deriving DecidableEq

/-- Outcome of a Go function call: a value, an error, or a runtime panic. -/
inductive GoResult (α : Type) where
  | ok (a : α)
  | err (msg : String)
  | panic
deriving DecidableEq

/-! ## The functions of `utils.go` -/

/-- Tail of `ensureBridgeAddr` (utils.go:35-39): add the address, wrapping a
failure. -/
def ensureBridgeAddrAdd (w : World) (br : Link) (ipn : IPNet) : World × GoResult Unit :=
  match addrAdd w br ipn with
  | (w', .ok _) => (w', .ok ())
  | (w', .error e) =>
    (w', .err ("could not add IP address to \"" ++ br.name ++ "\": " ++ errString e))

/-- `ensureBridgeAddr` (utils.go:17-40): list the bridge's IPv4 addresses; an
empty list leads to an add, a rendered-CIDR match is a no-op, and any other
non-empty list is a conflict error. -/
def ensureBridgeAddr (w : World) (br : Link) (ipn : IPNet) : World × GoResult Unit :=
  match addrList w br with
  | .error e =>
    if e != .enoent then
      (w, .err ("could not  list of IP addresses: " ++ errString e))
    else
      -- a nil address list falls through the `len(addrs) > 0` test to the add
      ensureBridgeAddrAdd w br ipn
  | .ok addrs =>
    if addrs.length > 0 then
      let ipnStr := ipnetString ipn
      if addrs.any (fun a => ipnetString a == ipnStr) then (w, .ok ())
      else
        (w, .err ("\"" ++ br.name ++ "\" already has an IP address different from "
                  ++ ipnetString ipn))
    else ensureBridgeAddrAdd w br ipn

/-- `bridgeByName` (utils.go:42-52): look the link up by name and insist it is
a bridge. -/
def bridgeByName (w : World) (name : String) : GoResult Link :=
  match linkByName w name with
  | .error e => .err ("could not lookup \"" ++ name ++ "\": " ++ errString e)
  | .ok l =>
    if l.kind == .bridge then .ok l
    else .err ("\"" ++ name ++ "\" already exists but is not a bridge")

/-- `ensureBridge` (utils.go:54-84): create the bridge with the explicit
`TxQLen: -1` sentinel; on `EEXIST` re-resolve the existing link by name;
bring the result up. -/
def ensureBridge (w : World) (brName : String) (mtu : Int) : World × GoResult Link :=
  let br : Link :=
    { index := 0, name := brName, kind := .bridge, mtu := mtu, txqlen := -1 }
  match linkAdd w br with
  | (w1, .error e) =>
    if e != .eexist then
      (w1, .err ("could not add \"" ++ brName ++ "\": " ++ errString e))
    else
      match bridgeByName w1 brName with
      | .err msg => (w1, .err msg)
      | .panic => (w1, .panic)
      | .ok br2 =>
        match linkSetUp w1 br2 with
        | (w2, .ok _) => (w2, .ok br2)
        | (w2, .error e2) => (w2, .err (errString e2))
  | (w1, .ok br1) =>
    match linkSetUp w1 br1 with
    | (w2, .ok _) => (w2, .ok br1)
    | (w2, .error e2) => (w2, .err (errString e2))

/-- State spanning the container and host network namespaces during
`setupVeth`. -/
structure NSWorld where
  cont : World
  host : World
deriving DecidableEq

/-- `ip.SetupVeth` (CNI `pkg/ip`, invoked inside `netns.Do`): create the veth
pair in the container namespace (the library chooses the host-side name),
bring the container end up, and move the host end into the host namespace,
where the kernel assigns it a fresh interface index.  The returned handle is
the one obtained before the move, so its index is stale.  A failure while
creating the pair leaves both namespaces unchanged. -/
def ipSetupVeth (s : NSWorld) (contVethName : String) (mtu : Int) :
    NSWorld × GoResult Link :=
  let hostName := "veth" ++ toString (s.cont.nextIndex + 1)
  let contVeth : Link := { index := 0, name := contVethName, kind := .veth, mtu := mtu }
  let hostVeth0 : Link := { index := 0, name := hostName, kind := .veth, mtu := mtu }
  match linkAdd s.cont contVeth with
  | (_, .error e) => (s, .err (errString e))
  | (c1, .ok cv) =>
    match linkAdd c1 hostVeth0 with
    | (_, .error e) => (s, .err (errString e))
    | (c2, .ok hvStale) =>
      let c3 := (linkSetUp c2 cv).1
      let c4 : World := { c3 with links := c3.links.filter (fun l => l.index != hvStale.index) }
      match linkAdd s.host { hvStale with index := 0 } with
      | (_, .error e) => (⟨c4, s.host⟩, .err (errString e))
      | (h1, .ok _) => (⟨c4, h1⟩, .ok hvStale)

/-- `setupVeth` (utils.go:86-120): create the pair inside the container
namespace, then — because the host end's index changed during the namespace
move — look the host end up again by name before enslaving it to the bridge
and setting hairpin mode, in strict sequence with no rollback. -/
def setupVeth (s : NSWorld) (br : Link) (ifName : String) (mtu : Int)
    (hairpinMode : Bool) : NSWorld × GoResult Unit :=
  match ipSetupVeth s ifName mtu with
  | (s1, .err e) => (s1, .err e)
  | (s1, .panic) => (s1, .panic)
  | (s1, .ok hostVethStale) =>
    let hostVethName := hostVethStale.name
    match linkByName s1.host hostVethName with
    | .error e =>
      (s1, .err ("failed to lookup \"" ++ hostVethName ++ "\": " ++ errString e))
    | .ok hostVeth =>
      match linkSetMaster s1.host hostVeth br with
      | (h2, .error e) =>
        (⟨s1.cont, h2⟩,
         .err ("failed to connect \"" ++ hostVethName ++ "\" to bridge "
               ++ br.name ++ ": " ++ errString e))
      | (h2, .ok _) =>
        match linkSetHairpin h2 hostVeth hairpinMode with
        | (h3, .error e) =>
          (⟨s1.cont, h3⟩,
           .err ("failed to setup hairpin mode for " ++ hostVethName ++ ": "
                 ++ errString e))
        | (h3, .ok _) => (⟨s1.cont, h3⟩, .ok ())

/-- Parse step of the `BrIP` branch of `calculateBridgeIP` (utils.go:143-150):
a bare address, else the address part of a CIDR. -/
def brIPParsed (n : NetConf) : Option GoIP :=
  match parseIP n.BrIP with
  | some i => some i
  | none => (parseCIDR n.BrIP).map (fun p => p.1)

/-- `calculateBridgeIP` (utils.go:126-170).  The default branch takes the
subnet network address as four octets via `To4` — indexing the `nil` result of
`To4` on a non-IPv4 network is a runtime panic — and increments the last octet
with wrapping byte arithmetic. -/
def calculateBridgeIP (n : NetConf) : GoResult IPNet :=
  if n.BrSubnet == "" then .err "mandatory bridgeSubnet not specified in config"
  else
    match parseCIDR n.BrSubnet with
    | none => .err "Invalid bridgeSubnet specified got error: invalid CIDR address"
    | some (_, brNetworkIPNet) =>
      if n.BrIP != "" then
        match brIPParsed n with
        | none => .err "invalid bridgeIP specified in config"
        | some ip =>
          if !(contains brNetworkIPNet ip) then .err "bridgeIP is not in bridgeSubnet"
          else .ok ⟨ip, brNetworkIPNet.mask⟩
      else
        match to4 brNetworkIPNet.ip with
        | some [a, b, c, d] => .ok ⟨ipv4 a b c (d + 1), brNetworkIPNet.mask⟩
        | _ => .panic

/-- Tail of `setBridgeIP` (utils.go:202-207): add the computed address,
wrapping a failure. -/
def setBridgeIPAdd (w : World) (n : NetConf) (link : Link) (bridgeIPNet : IPNet) :
    World × GoResult Unit :=
  match addrAdd w link bridgeIPNet with
  | (w', .ok _) => (w', .ok ())
  | (w', .error e) =>
    (w', .err ("failed to add IP addr to \"" ++ n.BrName ++ "\": " ++ errString e))

/-- `setBridgeIP` (utils.go:172-208): resolve the bridge, compute its target
address, return early when an existing address matches the rendered target,
and otherwise fall through to the add. -/
def setBridgeIP (w : World) (n : NetConf) : World × GoResult Unit :=
  if n.BrSubnet == "" then (w, .err "mandatory bridgeSubnet not specified in config")
  else
    match linkByName w n.BrName with
    | .error e =>
      (w, .err ("failed to lookup \"" ++ n.BrName ++ "\": " ++ errString e))
    | .ok link =>
      match calculateBridgeIP n with
      | .panic => (w, .panic)
      | .err msg => (w, .err ("failed to calculate bridge IP: " ++ msg))
      | .ok bridgeIPNet =>
        match addrList w link with
        | .error e =>
          if e != .enoent then
            (w, .err ("could not get list of IP addresses: " ++ errString e))
          else setBridgeIPAdd w n link bridgeIPNet
        | .ok addrs =>
          if addrs.length > 0
              && addrs.any (fun a => ipnetString a == ipnetString bridgeIPNet) then
            -- Bridge IP already set, nothing to do
            (w, .ok ())
          else setBridgeIPAdd w n link bridgeIPNet

/-- Route loop of `configureInterface` (utils.go:248-259): explicit gateway
when present, else the IPAM default; a duplicate-route failure
(`os.IsExist`) is skipped, any other failure aborts. -/
def configRoutes (w : World) (link : Link) (ifName : String) (gateway : GoIP) :
    List CniRoute → World × GoResult Unit
  | [] => (w, .ok ())
  | r :: rest =>
    let gw := match r.GW with | some g => g | none => gateway
    match routeAdd w r.Dst gw link with
    | (w', .ok _) => configRoutes w' link ifName gateway rest
    | (w', .error e) =>
      if !(osIsExist e) then
        (w', .err ("failed to add route '" ++ ipnetString r.Dst ++ " via "
                   ++ ipString gw ++ " dev " ++ ifName ++ "': " ++ errString e))
      else configRoutes w' link ifName gateway rest

/-- `configureInterface` (utils.go:228-262): resolve and raise the interface,
add the IPAM address treating `"file exists"` as a benign no-op, then install
the routes. -/
def configureInterface (w : World) (ifName : String) (res : CniResult) :
    World × GoResult Unit :=
  match linkByName w ifName with
  | .error e =>
    (w, .err ("failed to lookup \"" ++ ifName ++ "\": " ++ errString e))
  | .ok link =>
    match linkSetUp w link with
    | (w1, .error e) =>
      (w1, .err ("failed to set \"" ++ ifName ++ "\" UP: " ++ errString e))
    | (w1, .ok _) =>
      match addrAdd w1 link res.IP4.IP with
      | (w2, .error e) =>
        if errString e == "file exists" then
          -- logged and tolerated: the interface already has this address
          configRoutes w2 link ifName res.IP4.Gateway res.IP4.Routes
        else
          (w2, .err ("failed to add IP addr to \"" ++ ifName ++ "\": " ++ errString e))
      | (w2, .ok _) => configRoutes w2 link ifName res.IP4.Gateway res.IP4.Routes

/-- `ns.WithNetNSPath`: run the body against the namespace at the given path;
a missing namespace is an open failure. -/
def withNetNSPath (nss : Namespaces) (path : String) (f : World → GoResult Unit) :
    GoResult Unit :=
  match nss.find? (fun q => q.1 == path) with
  | none => .err "failed to open netns"
  | some q => f q.2

/-- `checkIfContainerInterfaceExists` (utils.go:264-277): probe the interface
inside the container namespace, collapsing every failure to `false`. -/
def checkIfContainerInterfaceExists (nss : Namespaces) (args : CmdArgs) : Bool :=
  let err := withNetNSPath nss args.Netns (fun w =>
    match linkByName w args.IfName with
    | .error e => .err ("failed to lookup \"" ++ args.IfName ++ "\": " ++ errString e)
    | .ok _ => .ok ())
  match err with
  | .ok _ => true
  | _ => false

/-- `setInterfaceMacAddress` (utils.go:279-295): resolve the interface by
name, then parse the textual MAC, then apply it. -/
def setInterfaceMacAddress (w : World) (ifName mac : String) : World × GoResult Unit :=
  match linkByName w ifName with
  | .error e =>
    (w, .err ("failed to lookup \"" ++ ifName ++ "\": " ++ errString e))
  | .ok link =>
    match parseMAC mac with
    | none => (w, .err "failed to parse MAC address: invalid MAC address")
    | some hwaddr =>
      match linkSetHardwareAddr w link hwaddr with
      | (w', .ok _) => (w', .ok ())
      | (w', .error e) =>
        (w', .err ("failed to set hw address of interface: " ++ errString e))

/-! ## Claim-side notions

These definitions follow the specification's wording, not the source; they
are compared against the source translations in the theorems below. -/

/-- Increment of an address as an integer (the spec's "network address
incremented by one", carrying across octets), on the byte-list form. -/
def ipPlusOneAux : List Nat → List Nat
  | [] => []
  | x :: xs => if x + 1 ≤ 255 then (x + 1) :: xs else 0 :: ipPlusOneAux xs

/-- Spec-side full-carry increment, big-endian. -/
def ipPlusOne (l : List Nat) : List Nat := (ipPlusOneAux l.reverse).reverse

/-- Route phase as the specification describes it (§4.4): each route uses its
explicit gateway when present, else the IPAM default; an already-present
identical route is tolerated; any other install failure stops the remaining
routes.  Returns the final state and whether the phase completed. -/
def specRoutePhase (w : World) (link : Link) (gwd : GoIP) :
    List CniRoute → World × Bool
  | [] => (w, true)
  | r :: rest =>
    let gw := match r.GW with | some g => g | none => gwd
    match routeAdd w r.Dst gw link with
    | (w', .ok _) => specRoutePhase w' link gwd rest
    | (w', .error .eexist) => specRoutePhase w' link gwd rest
    | (w', .error _) => (w', false)

/-! ## Helper lemmas -/

/-- Mapping a guarded update over links none of which match leaves the list
unchanged. -/
theorem map_guard_id (l : List Link) (i : Nat) (f : Link → Link)
    (h : ∀ x ∈ l, x.index ≠ i) :
    l.map (fun x => if x.index == i then f x else x) = l := by
  induction l with
  | nil => rfl
  | cons a t ih =>
    have ha : (a.index == i) = false := by
      simp only [beq_eq_false_iff_ne]
      exact h a (List.mem_cons_self a t)
    simp only [List.map_cons, ha, Bool.false_eq_true, if_false, List.cons.injEq, true_and]
    exact ih (fun x hx => h x (List.mem_cons_of_mem _ hx))

/-- Index-keyed lookup after an index-preserving guarded update. -/
theorem find?_index_map_guard (l : List Link) (i : Nat) (f : Link → Link)
    (hf : ∀ x, (f x).index = x.index) :
    (l.map (fun x => if x.index == i then f x else x)).find? (fun x => x.index == i)
      = (l.find? (fun x => x.index == i)).map f := by
  induction l with
  | nil => rfl
  | cons a t ih =>
    by_cases ha : a.index = i
    · have h1 : (a.index == i) = true := by simp [ha]
      have h2 : ((f a).index == i) = true := by simp [hf, ha]
      rw [List.map_cons, if_pos h1, List.find?_cons, List.find?_cons, h1, h2]
      rfl
    · have h1 : (a.index == i) = false := by simp [ha]
      rw [List.map_cons, if_neg (by simp [ha]), List.find?_cons, List.find?_cons, h1, ih]

/-- `findLinkByIndex` after an index-preserving `updateLink` at the same
index. -/
theorem findLinkByIndex_updateLink (w : World) (i : Nat) (f : Link → Link)
    (hf : ∀ x, (f x).index = x.index) :
    findLinkByIndex (updateLink w i f) i = (findLinkByIndex w i).map f := by
  unfold findLinkByIndex updateLink
  exact find?_index_map_guard w.links i f hf

/-- `routeAdd` never changes the link table. -/
theorem routeAdd_links (w : World) (d : IPNet) (g : GoIP) (l : Link) :
    ((routeAdd w d g l).1).links = w.links := by
  unfold routeAdd
  cases findLinkByIndex w l.index with
  | none => rfl
  | some x =>
    by_cases h1 : x.addrs.any (fun a => contains a g)
    · by_cases h2 : w.routes.any (fun r => ipnetString r.dst == ipnetString d)
      · simp [h1, h2]
      · simp [h1, h2]
    · simp [h1]

/-- A list of length four is literally a four-element list. -/
theorem length_four_cases {l : List Nat} (h : l.length = 4) :
    ∃ a b c d, l = [a, b, c, d] := by
  rcases l with _ | ⟨a, _ | ⟨b, _ | ⟨c, _ | ⟨d, _ | ⟨e, t⟩⟩⟩⟩⟩
  · simp at h
  · simp at h
  · simp at h
  · simp at h
  · exact ⟨a, b, c, d, rfl⟩
  · simp at h

/-- The argument of a successful `to4` is returned in four-octet form. -/
theorem to4_four {ip b4 : GoIP} (h : to4 ip = some b4) :
    ∃ a b c d, b4 = [a, b, c, d] := by
  unfold to4 at h
  split at h
  · rename_i h1
    injection h with h3
    exact length_four_cases (h3 ▸ (by simpa using h1))
  · split at h
    · rename_i h1 h2
      injection h with h3
      have hlen : ip.length = 16 := by
        simp only [Bool.and_eq_true, beq_iff_eq] at h2
        exact h2.1.1.1
      refine length_four_cases ?_
      rw [← h3]
      simp [hlen]
    · simp at h

/-! ## Claim C7 -/

/-- C7: `checkIfContainerInterfaceExists` returns `true` exactly when the
namespace path resolves and the interface lookup inside it succeeds; every
failure — nonexistent namespace path, absent interface — is collapsed to
`false`, with no distinction of causes. -/
theorem c7_checkIfContainerInterfaceExists (nss : Namespaces) (args : CmdArgs) :
    checkIfContainerInterfaceExists nss args = true ↔
      ∃ q, nss.find? (fun x => x.1 == args.Netns) = some q ∧
        ∃ l, findLinkByName q.2 args.IfName = some l := by
  unfold checkIfContainerInterfaceExists withNetNSPath
  cases h : nss.find? (fun x => x.1 == args.Netns) with
  | none => simp
  | some q =>
    cases h2 : findLinkByName q.2 args.IfName with
    | none => simp [linkByName, h2]
    | some l => simp [linkByName, h2]

/-! ## Claim C9 -/

/-- C9: every bridge link that `ensureBridge` constructs for creation carries
the explicit kernel-default transmit-queue-length sentinel `-1`, never a bare
zero, for every name and MTU. -/
theorem c9_ensureBridge_txqlen (w : World) (brName : String) (mtu : Int)
    (h : findLinkByName w brName = none) :
    (ensureBridge w brName mtu).2 =
      .ok { index := w.nextIndex, name := brName, kind := .bridge, mtu := mtu,
            txqlen := -1 } ∧
    Link.txqlen { index := w.nextIndex, name := brName, kind := .bridge, mtu := mtu,
                  txqlen := -1 } = -1 ∧
    ((-1 : Int) ≠ 0) := by
  refine ⟨?_, rfl, by decide⟩
  have hadd : linkAdd w { index := 0, name := brName, kind := .bridge, mtu := mtu,
                          txqlen := -1 } =
      ({ links := w.links ++ [{ index := w.nextIndex, name := brName, kind := .bridge,
                                mtu := mtu, txqlen := -1 }],
         routes := w.routes, nextIndex := w.nextIndex + 1 },
       .ok { index := w.nextIndex, name := brName, kind := .bridge, mtu := mtu,
             txqlen := -1 }) := by
    simp only [linkAdd, h]
  obtain ⟨x, hx⟩ : ∃ x, findLinkByIndex
      { links := w.links ++ [{ index := w.nextIndex, name := brName, kind := .bridge,
                               mtu := mtu, txqlen := -1 }],
        routes := w.routes, nextIndex := w.nextIndex + 1 } w.nextIndex = some x := by
    unfold findLinkByIndex
    rw [List.find?_append]
    cases hw : w.links.find? (fun l => l.index == w.nextIndex) with
    | some y => exact ⟨y, by simp [hw]⟩
    | none =>
      exact ⟨{ index := w.nextIndex, name := brName, kind := .bridge, mtu := mtu,
               txqlen := -1 }, by simp [hw]⟩
  simp only [ensureBridge, hadd, linkSetUp, hx]

/-- Witness for C9 at the empty world. -/
theorem c9_witness :
    (ensureBridge {} "cni0" 1500).2 =
      .ok { index := 1, name := "cni0", kind := .bridge, mtu := 1500, txqlen := -1 } ∧
    Link.txqlen { index := 1, name := "cni0", kind := .bridge, mtu := 1500,
                  txqlen := -1 } = -1 ∧
    ((-1 : Int) ≠ 0) :=
  c9_ensureBridge_txqlen {} "cni0" 1500 (by decide)

/-! ## Claim C2 -/

/-- C2 (corrected): with an empty `BrIP` and a `BrSubnet` parsing as an IPv4
CIDR, `calculateBridgeIP` returns the subnet's network address with its last
octet incremented modulo 256, paired with the subnet's mask; whenever the last
octet of the network address is below 255 this equals the network address
incremented by one (the first usable host), as for 10.0.0.0/24 ↦ 10.0.0.1/24. -/
theorem c2_calculateBridgeIP_default (n : NetConf) (rest : GoIP) (netw : IPNet)
    (a b c d : Nat) (hip : n.BrIP = "")
    (hsub : parseCIDR n.BrSubnet = some (rest, netw))
    (h4 : to4 netw.ip = some [a, b, c, d]) :
    calculateBridgeIP n = .ok ⟨ipv4 a b c (d + 1), netw.mask⟩ ∧
    (a ≤ 255 → b ≤ 255 → c ≤ 255 → d < 255 →
      to4 (ipv4 a b c (d + 1)) = some (ipPlusOne [a, b, c, d])) := by
  constructor
  · have hbs : (n.BrSubnet == "") = false := by
      rw [beq_eq_false_iff_ne]
      intro he
      rw [he] at hsub
      have hemp : parseCIDR "" = none := by decide
      rw [hemp] at hsub
      cases hsub
    simp [calculateBridgeIP, hbs, hsub, hip, h4]
  · intro ha hb hc hd
    have h1 : a % 256 = a := Nat.mod_eq_of_lt (by omega)
    have h2 : b % 256 = b := Nat.mod_eq_of_lt (by omega)
    have h3 : c % 256 = c := Nat.mod_eq_of_lt (by omega)
    have h5 : (d + 1) % 256 = d + 1 := Nat.mod_eq_of_lt (by omega)
    have h6 : d + 1 ≤ 255 := by omega
    simp [ipv4, v4MappedHeader, to4, isZeros, h1, h2, h3, h5, ipPlusOne, ipPlusOneAux, h6]

/-- C2 counterexample: for subnet `10.0.0.255/32` — a valid CIDR — with empty
`BrIP`, the code returns `10.0.0.0/32` (last octet wrapped by byte overflow),
not the network address incremented by one, which is `10.0.1.0`. -/
theorem c2_counterexample :
    calculateBridgeIP { BrSubnet := "10.0.0.255/32", BrIP := "" } =
      .ok ⟨[0, 0, 0, 0, 0, 0, 0, 0, 0, 0, 255, 255, 10, 0, 0, 0],
           [255, 255, 255, 255]⟩ ∧
    ipPlusOne [10, 0, 0, 255] = [10, 0, 1, 0] ∧
    to4 [0, 0, 0, 0, 0, 0, 0, 0, 0, 0, 255, 255, 10, 0, 0, 0] = some [10, 0, 0, 0] ∧
    [10, 0, 0, 0] ≠ [10, 0, 1, 0] := by decide

/-- Witness for C2 at the spec's example subnet. -/
theorem c2_witness :
    calculateBridgeIP { BrSubnet := "10.0.0.0/24", BrIP := "" } =
      .ok ⟨ipv4 10 0 0 1, [255, 255, 255, 0]⟩ ∧
    to4 (ipv4 10 0 0 1) = some (ipPlusOne [10, 0, 0, 0]) := by
  have h := c2_calculateBridgeIP_default { BrSubnet := "10.0.0.0/24", BrIP := "" }
      (ipv4 10 0 0 0) ⟨[10, 0, 0, 0], [255, 255, 255, 0]⟩ 10 0 0 0 rfl
      (by decide) (by decide)
  exact ⟨h.1, h.2 (by decide) (by decide) (by decide) (by decide)⟩

/-! ## Claim C10 -/

/-- C10 (corrected): in the default branch (`BrIP` empty, subnet parsed), the
four-octet extraction succeeds and the branch returns a value exactly when
`To4` of the network address is non-nil; for a valid IPv6 CIDR whose network
address is not IPv4-mapped, `To4` is nil and the octet extraction is a runtime
panic rather than a normal return. -/
theorem c10_default_branch (n : NetConf) (rest : GoIP) (netw : IPNet)
    (hip : n.BrIP = "") (hsub : parseCIDR n.BrSubnet = some (rest, netw)) :
    (∀ b4, to4 netw.ip = some b4 →
      calculateBridgeIP n =
        .ok ⟨ipv4 (b4.getD 0 0) (b4.getD 1 0) (b4.getD 2 0) (b4.getD 3 0 + 1),
             netw.mask⟩) ∧
    (to4 netw.ip = none → calculateBridgeIP n = .panic) := by
  have hbs : (n.BrSubnet == "") = false := by
    rw [beq_eq_false_iff_ne]
    intro he
    rw [he] at hsub
    have hemp : parseCIDR "" = none := by decide
    rw [hemp] at hsub
    cases hsub
  constructor
  · intro b4 h4
    obtain ⟨a, b, c, d, rfl⟩ := to4_four h4
    simp [calculateBridgeIP, hbs, hsub, hip, h4]
  · intro h4
    simp [calculateBridgeIP, hbs, hsub, hip, h4]

/-- C10 counterexample: `ff00::/8` is a valid CIDR, its network address is not
IPv4-mapped, so `To4` is nil and `calculateBridgeIP` panics instead of
returning a value or an error. -/
theorem c10_counterexample :
    parseCIDR "ff00::/8" =
      some ([255, 0, 0, 0, 0, 0, 0, 0, 0, 0, 0, 0, 0, 0, 0, 0],
        ⟨[255, 0, 0, 0, 0, 0, 0, 0, 0, 0, 0, 0, 0, 0, 0, 0],
         [255, 0, 0, 0, 0, 0, 0, 0, 0, 0, 0, 0, 0, 0, 0, 0]⟩) ∧
    to4 [255, 0, 0, 0, 0, 0, 0, 0, 0, 0, 0, 0, 0, 0, 0, 0] = none ∧
    calculateBridgeIP { BrSubnet := "ff00::/8", BrIP := "" } = .panic := by decide

/-- Witness for C10 on an IPv4 subnet, where the branch returns normally. -/
theorem c10_witness :
    calculateBridgeIP { BrSubnet := "192.168.1.0/24", BrIP := "" } =
      .ok ⟨ipv4 192 168 1 1, [255, 255, 255, 0]⟩ := by
  have h := c10_default_branch { BrSubnet := "192.168.1.0/24", BrIP := "" }
      (ipv4 192 168 1 0) ⟨[192, 168, 1, 0], [255, 255, 255, 0]⟩ rfl (by decide)
  exact h.1 [192, 168, 1, 0] (by decide)

/-! ## Claim C3 -/

/-- C3 (confirmed): with a non-empty `BrIP`, `calculateBridgeIP` parses `BrIP`
as a bare address or a CIDR and, when the parsed address lies inside the
subnet, returns it with the subnet's mask; it errors exactly when the subnet
is absent or unparseable, when `BrIP` parses neither way, or when the parsed
address lies outside the subnet (then with the validation message). -/
theorem c3_calculateBridgeIP_brip (n : NetConf) (h : n.BrIP ≠ "") :
    ((∃ msg, calculateBridgeIP n = .err msg) ↔
      (n.BrSubnet = "" ∨ parseCIDR n.BrSubnet = none ∨ brIPParsed n = none ∨
        (∃ rest netw ipv, parseCIDR n.BrSubnet = some (rest, netw) ∧
          brIPParsed n = some ipv ∧ contains netw ipv = false))) ∧
    (∀ rest netw ipv, parseCIDR n.BrSubnet = some (rest, netw) →
      brIPParsed n = some ipv → contains netw ipv = true →
      calculateBridgeIP n = .ok ⟨ipv, netw.mask⟩) ∧
    (∀ rest netw ipv, parseCIDR n.BrSubnet = some (rest, netw) →
      brIPParsed n = some ipv → contains netw ipv = false →
      calculateBridgeIP n = .err "bridgeIP is not in bridgeSubnet") := by
  have hbne : (n.BrIP != "") = true := by simp [h]
  by_cases hs : n.BrSubnet = ""
  · have hval : calculateBridgeIP n = .err "mandatory bridgeSubnet not specified in config" := by
      simp [calculateBridgeIP, hs]
    have hcnone : ∀ rest netw, ¬ parseCIDR n.BrSubnet = some (rest, netw) := by
      intro rest netw hc
      rw [hs] at hc
      have hemp : parseCIDR "" = none := by decide
      rw [hemp] at hc
      cases hc
    refine ⟨⟨fun _ => Or.inl hs, fun _ => ⟨_, hval⟩⟩,
      fun rest netw ipv hc _ _ => absurd hc (hcnone rest netw),
      fun rest netw ipv hc _ _ => absurd hc (hcnone rest netw)⟩
  · have hbs : (n.BrSubnet == "") = false := by simp [hs]
    cases hc : parseCIDR n.BrSubnet with
    | none =>
      have hval : calculateBridgeIP n =
          .err "Invalid bridgeSubnet specified got error: invalid CIDR address" := by
        simp [calculateBridgeIP, hbs, hc]
      refine ⟨⟨fun _ => Or.inr (Or.inl rfl), fun _ => ⟨_, hval⟩⟩,
        fun rest netw ipv hc2 _ _ => ?_, fun rest netw ipv hc2 _ _ => ?_⟩
      · cases hc2
      · cases hc2
    | some p =>
      obtain ⟨prest, pnetw⟩ := p
      cases hb : brIPParsed n with
      | none =>
        have hval : calculateBridgeIP n = .err "invalid bridgeIP specified in config" := by
          simp [calculateBridgeIP, hbs, hc, hbne, hb]
        refine ⟨⟨fun _ => Or.inr (Or.inr (Or.inl rfl)), fun _ => ⟨_, hval⟩⟩,
          fun rest netw ipv _ hb2 _ => ?_, fun rest netw ipv _ hb2 _ => ?_⟩
        · cases hb2
        · cases hb2
      | some ipv0 =>
        cases hcon : contains pnetw ipv0 with
        | false =>
          have hval : calculateBridgeIP n = .err "bridgeIP is not in bridgeSubnet" := by
            simp [calculateBridgeIP, hbs, hc, hbne, hb, hcon]
          refine ⟨⟨fun _ => Or.inr (Or.inr (Or.inr ⟨prest, pnetw, ipv0, rfl, rfl, hcon⟩)),
            fun _ => ⟨_, hval⟩⟩,
            fun rest netw ipv hc2 hb2 hcon2 => ?_,
            fun rest netw ipv hc2 hb2 hcon2 => hval⟩
          injection hc2 with hpair
          injection hb2 with hi
          cases hpair
          cases hi
          rw [hcon] at hcon2
          cases hcon2
        | true =>
          have hval : calculateBridgeIP n = .ok ⟨ipv0, pnetw.mask⟩ := by
            simp [calculateBridgeIP, hbs, hc, hbne, hb, hcon]
          refine ⟨⟨fun hex => ?_, fun hcond => ?_⟩,
            fun rest netw ipv hc2 hb2 hcon2 => ?_,
            fun rest netw ipv hc2 hb2 hcon2 => ?_⟩
          · obtain ⟨msg, hmsg⟩ := hex
            rw [hval] at hmsg
            cases hmsg
          · rcases hcond with h1 | h2 | h3 | ⟨r2, n2, i2, hc2, hb2, hcon2⟩
            · exact absurd h1 hs
            · cases h2
            · cases h3
            · injection hc2 with hpair
              injection hb2 with hi
              cases hpair
              cases hi
              rw [hcon] at hcon2
              cases hcon2
          · injection hc2 with hpair
            injection hb2 with hi
            cases hpair
            cases hi
            exact hval
          · injection hc2 with hpair
            injection hb2 with hi
            cases hpair
            cases hi
            rw [hcon] at hcon2
            cases hcon2

/-- Witness for C3 at the spec's two examples. -/
theorem c3_witness :
    calculateBridgeIP { BrSubnet := "10.0.0.0/24", BrIP := "10.0.0.5" } =
      .ok ⟨ipv4 10 0 0 5, [255, 255, 255, 0]⟩ ∧
    calculateBridgeIP { BrSubnet := "10.0.0.0/24", BrIP := "10.1.0.5" } =
      .err "bridgeIP is not in bridgeSubnet" := by
  constructor
  · exact (c3_calculateBridgeIP_brip { BrSubnet := "10.0.0.0/24", BrIP := "10.0.0.5" }
      (by decide)).2.1 (ipv4 10 0 0 0) ⟨[10, 0, 0, 0], [255, 255, 255, 0]⟩
      (ipv4 10 0 0 5) (by decide) (by decide) (by decide)
  · exact (c3_calculateBridgeIP_brip { BrSubnet := "10.0.0.0/24", BrIP := "10.1.0.5" }
      (by decide)).2.2 (ipv4 10 0 0 0) ⟨[10, 0, 0, 0], [255, 255, 255, 0]⟩
      (ipv4 10 1 0 5) (by decide) (by decide) (by decide)

/-! ## Claim C8 -/

/-- C8 (corrected): `setInterfaceMacAddress` first resolves the interface by
name — a missing interface yields a lookup error even when the MAC is
malformed — and only then parses the textual MAC, failing on malformed input;
with a resolvable interface and a well-formed MAC it applies the parsed
address, propagating any underlying failure. -/
theorem c8_setInterfaceMacAddress (w : World) (ifName mac : String) :
    (findLinkByName w ifName = none →
      setInterfaceMacAddress w ifName mac =
        (w, .err ("failed to lookup \"" ++ ifName ++ "\": " ++ errString .enoent))) ∧
    (∀ l, findLinkByName w ifName = some l → parseMAC mac = none →
      setInterfaceMacAddress w ifName mac =
        (w, .err "failed to parse MAC address: invalid MAC address")) ∧
    (∀ l hw, findLinkByName w ifName = some l → parseMAC mac = some hw →
      findLinkByIndex w l.index = some l →
      setInterfaceMacAddress w ifName mac =
        (updateLink w l.index (fun x => { x with hwaddr := some hw }), .ok ())) := by
  refine ⟨fun h0 => ?_, fun l h1 h2 => ?_, fun l hw h1 h2 h3 => ?_⟩
  · simp [setInterfaceMacAddress, linkByName, h0, errString]
  · simp [setInterfaceMacAddress, linkByName, h1, h2]
  · simp [setInterfaceMacAddress, linkByName, h1, h2, linkSetHardwareAddr, h3]

/-- C8 counterexample: with no interface `eth0` and the malformed MAC
`garbage`, the call fails with the lookup error, not the parse error the
claim requires regardless of interface existence. -/
theorem c8_counterexample :
    setInterfaceMacAddress {} "eth0" "garbage" =
      ({}, .err "failed to lookup \"eth0\": no such file or directory") ∧
    parseMAC "garbage" = none ∧
    ("failed to lookup \"eth0\": no such file or directory" ≠
      "failed to parse MAC address: invalid MAC address") := by decide

/-- Witness for C8: a present interface with a malformed MAC hits the parse
error, and with a well-formed MAC the address is applied. -/
theorem c8_witness :
    setInterfaceMacAddress
        { links := [{ index := 1, name := "eth0" }], nextIndex := 2 } "eth0" "nonsense" =
      ({ links := [{ index := 1, name := "eth0" }], nextIndex := 2 },
       .err "failed to parse MAC address: invalid MAC address") ∧
    setInterfaceMacAddress
        { links := [{ index := 1, name := "eth0" }], nextIndex := 2 } "eth0"
        "aa:bb:cc:dd:ee:ff" =
      (updateLink { links := [{ index := 1, name := "eth0" }], nextIndex := 2 } 1
        (fun x => { x with hwaddr := some [170, 187, 204, 221, 238, 255] }), .ok ()) := by
  constructor
  · exact (c8_setInterfaceMacAddress
      { links := [{ index := 1, name := "eth0" }], nextIndex := 2 } "eth0" "nonsense").2.1
      { index := 1, name := "eth0" } (by decide) (by decide)
  · exact (c8_setInterfaceMacAddress
      { links := [{ index := 1, name := "eth0" }], nextIndex := 2 } "eth0"
      "aa:bb:cc:dd:ee:ff").2.2
      { index := 1, name := "eth0" } [170, 187, 204, 221, 238, 255]
      (by decide) (by decide) (by decide)

/-! ## Claim C1 -/

/-- C1 (corrected): `ensureBridgeAddr` follows the claimed case analysis —
empty address list: add the target; some rendered CIDR equals the target:
success without modifying anything; otherwise: a conflict error with no
address added, deleted or replaced.  `setBridgeIP` shares only the first two
cases: with a non-empty list and no match it does not fail — it falls through
and adds the target address alongside the existing one. -/
theorem c1_bridge_addr_cases (w : World) (br : Link) (ipn : IPNet)
    (hidx : findLinkByIndex w br.index = some br) :
    ((br.addrs = [] →
        ensureBridgeAddr w br ipn =
          (updateLink w br.index (fun x => { x with addrs := x.addrs ++ [ipn] }), .ok ())) ∧
     ((∃ a ∈ br.addrs, ipnetString a = ipnetString ipn) →
        ensureBridgeAddr w br ipn = (w, .ok ())) ∧
     (br.addrs ≠ [] → (∀ a ∈ br.addrs, ipnetString a ≠ ipnetString ipn) →
        ensureBridgeAddr w br ipn =
          (w, .err ("\"" ++ br.name ++ "\" already has an IP address different from "
                    ++ ipnetString ipn)))) ∧
    (∀ n tgt, linkByName w n.BrName = .ok br → calculateBridgeIP n = .ok tgt →
      n.BrSubnet ≠ "" →
      (((∃ a ∈ br.addrs, ipnetString a = ipnetString tgt) →
          setBridgeIP w n = (w, .ok ())) ∧
       ((∀ a ∈ br.addrs, ipnetString a ≠ ipnetString tgt) →
          setBridgeIP w n =
            (updateLink w br.index (fun x => { x with addrs := x.addrs ++ [tgt] }),
             .ok ())))) := by
  have hlist : addrList w br = .ok br.addrs := by simp [addrList, hidx]
  refine ⟨⟨fun hemp => ?_, fun hmatch => ?_, fun hne hall => ?_⟩,
    fun n tgt hln hcalc hsub => ⟨fun hmatch => ?_, fun hall => ?_⟩⟩
  · simp [ensureBridgeAddr, hlist, hemp, ensureBridgeAddrAdd, addrAdd, hidx]
  · obtain ⟨a, ha, heq⟩ := hmatch
    have hlen : 0 < br.addrs.length := List.length_pos_of_mem ha
    have hany : br.addrs.any (fun x => ipnetString x == ipnetString ipn) = true := by
      rw [List.any_eq_true]
      exact ⟨a, ha, by simp [heq]⟩
    simp [ensureBridgeAddr, hlist, hlen, hany]
  · have hany : br.addrs.any (fun x => ipnetString x == ipnetString ipn) = false := by
      rw [List.any_eq_false]
      intro x hx
      simp [hall x hx]
    have hlen : 0 < br.addrs.length := List.length_pos.mpr hne
    simp [ensureBridgeAddr, hlist, hlen, hany]
  · have hbs : (n.BrSubnet == "") = false := by simp [hsub]
    obtain ⟨a, ha, heq⟩ := hmatch
    have hlen : 0 < br.addrs.length := List.length_pos_of_mem ha
    have hany : br.addrs.any (fun x => ipnetString x == ipnetString tgt) = true := by
      rw [List.any_eq_true]
      exact ⟨a, ha, by simp [heq]⟩
    simp [setBridgeIP, hbs, hln, hcalc, hlist, hlen, hany]
  · have hbs : (n.BrSubnet == "") = false := by simp [hsub]
    have hany : br.addrs.any (fun x => ipnetString x == ipnetString tgt) = false := by
      rw [List.any_eq_false]
      intro x hx
      simp [hall x hx]
    simp [setBridgeIP, hbs, hln, hcalc, hlist, hany, setBridgeIPAdd, addrAdd, hidx]

/-- C1 counterexample: on a bridge carrying 10.0.0.1/24 with target
10.0.0.2/24 (a differing address), `setBridgeIP` succeeds and adds the second
address instead of failing with a conflict as the claim states for both
functions. -/
theorem c1_counterexample :
    (setBridgeIP
        { links := [{ index := 1, name := "docker0", kind := .bridge, mtu := 1500,
                      txqlen := -1, up := true,
                      addrs := [⟨[10, 0, 0, 1], [255, 255, 255, 0]⟩] }],
          nextIndex := 2 }
        { BrName := "docker0", BrSubnet := "10.0.0.0/24", BrIP := "10.0.0.2" }).2
      = .ok () ∧
    ((setBridgeIP
        { links := [{ index := 1, name := "docker0", kind := .bridge, mtu := 1500,
                      txqlen := -1, up := true,
                      addrs := [⟨[10, 0, 0, 1], [255, 255, 255, 0]⟩] }],
          nextIndex := 2 }
        { BrName := "docker0", BrSubnet := "10.0.0.0/24", BrIP := "10.0.0.2" }).1.links.map
      (fun l => l.addrs))
      = [[⟨[10, 0, 0, 1], [255, 255, 255, 0]⟩, ⟨ipv4 10 0 0 2, [255, 255, 255, 0]⟩]] ∧
    ipnetString ⟨[10, 0, 0, 1], [255, 255, 255, 0]⟩ ≠
      ipnetString ⟨ipv4 10 0 0 2, [255, 255, 255, 0]⟩ := by decide

/-- Witness for C1: the conflict case of `ensureBridgeAddr` and the matching
no-op case of `setBridgeIP`, on a bridge carrying 10.0.0.1/24. -/
theorem c1_witness :
    ensureBridgeAddr
        { links := [{ index := 1, name := "docker0", kind := .bridge, mtu := 1500,
                      txqlen := -1, up := true,
                      addrs := [⟨[10, 0, 0, 1], [255, 255, 255, 0]⟩] }],
          nextIndex := 2 }
        { index := 1, name := "docker0", kind := .bridge, mtu := 1500,
          txqlen := -1, up := true, addrs := [⟨[10, 0, 0, 1], [255, 255, 255, 0]⟩] }
        ⟨ipv4 10 0 0 2, [255, 255, 255, 0]⟩ =
      ({ links := [{ index := 1, name := "docker0", kind := .bridge, mtu := 1500,
                     txqlen := -1, up := true,
                     addrs := [⟨[10, 0, 0, 1], [255, 255, 255, 0]⟩] }],
         nextIndex := 2 },
       .err ("\"" ++ "docker0" ++ "\" already has an IP address different from "
             ++ ipnetString ⟨ipv4 10 0 0 2, [255, 255, 255, 0]⟩)) ∧
    setBridgeIP
        { links := [{ index := 1, name := "docker0", kind := .bridge, mtu := 1500,
                      txqlen := -1, up := true,
                      addrs := [⟨[10, 0, 0, 1], [255, 255, 255, 0]⟩] }],
          nextIndex := 2 }
        { BrName := "docker0", BrSubnet := "10.0.0.0/24", BrIP := "10.0.0.1" } =
      ({ links := [{ index := 1, name := "docker0", kind := .bridge, mtu := 1500,
                     txqlen := -1, up := true,
                     addrs := [⟨[10, 0, 0, 1], [255, 255, 255, 0]⟩] }],
         nextIndex := 2 },
       .ok ()) := by
  constructor
  · exact (c1_bridge_addr_cases
      { links := [{ index := 1, name := "docker0", kind := .bridge, mtu := 1500,
                    txqlen := -1, up := true,
                    addrs := [⟨[10, 0, 0, 1], [255, 255, 255, 0]⟩] }],
        nextIndex := 2 }
      { index := 1, name := "docker0", kind := .bridge, mtu := 1500,
        txqlen := -1, up := true, addrs := [⟨[10, 0, 0, 1], [255, 255, 255, 0]⟩] }
      ⟨ipv4 10 0 0 2, [255, 255, 255, 0]⟩ (by decide)).1.2.2 (by decide) (by decide)
  · exact ((c1_bridge_addr_cases
      { links := [{ index := 1, name := "docker0", kind := .bridge, mtu := 1500,
                    txqlen := -1, up := true,
                    addrs := [⟨[10, 0, 0, 1], [255, 255, 255, 0]⟩] }],
        nextIndex := 2 }
      { index := 1, name := "docker0", kind := .bridge, mtu := 1500,
        txqlen := -1, up := true, addrs := [⟨[10, 0, 0, 1], [255, 255, 255, 0]⟩] }
      ⟨ipv4 10 0 0 2, [255, 255, 255, 0]⟩ (by decide)).2
      { BrName := "docker0", BrSubnet := "10.0.0.0/24", BrIP := "10.0.0.1" }
      ⟨ipv4 10 0 0 1, [255, 255, 255, 0]⟩
      (by decide) (by decide) (by decide)).1 (by decide)

/-! ## Claim C4 -/

/-- C4 (confirmed): when link creation fails because the name already exists,
`ensureBridge` re-resolves the existing link by name and returns it brought up
if it is a bridge — two calls with identical name and MTU produce one bridge
and the second call returns no error and leaves the world unchanged — and
fails with the type-mismatch error, never adopting the device, when the
existing link is not a bridge. -/
theorem c4_ensureBridge (w : World) (brName : String) (mtu : Int) :
    ((findLinkByName w brName = none ∧ (∀ l ∈ w.links, l.index < w.nextIndex)) →
      ensureBridge w brName mtu =
        ({ links := w.links ++ [{ index := w.nextIndex, name := brName, kind := .bridge,
                                  mtu := mtu, txqlen := -1, up := true }],
           routes := w.routes, nextIndex := w.nextIndex + 1 },
         .ok { index := w.nextIndex, name := brName, kind := .bridge, mtu := mtu,
               txqlen := -1 }) ∧
      ensureBridge (ensureBridge w brName mtu).1 brName mtu =
        ((ensureBridge w brName mtu).1,
         .ok { index := w.nextIndex, name := brName, kind := .bridge, mtu := mtu,
               txqlen := -1, up := true }) ∧
      (ensureBridge w brName mtu).1.links.countP (fun l => l.name == brName) = 1) ∧
    (∀ l, findLinkByName w brName = some l → l.kind ≠ .bridge →
      ensureBridge w brName mtu =
        (w, .err ("\"" ++ brName ++ "\" already exists but is not a bridge"))) := by
  constructor
  · rintro ⟨hfresh, hwf⟩
    have hfresh' : w.links.find? (fun l => l.name == brName) = none := hfresh
    have hWnone : w.links.find? (fun l => l.index == w.nextIndex) = none := by
      rw [List.find?_eq_none]
      intro x hx
      have hlt := hwf x hx
      simp only [beq_iff_eq]
      omega
    have hne : ∀ x ∈ w.links, x.index ≠ w.nextIndex := by
      intro x hx
      have := hwf x hx
      omega
    have hadd : linkAdd w { index := 0, name := brName, kind := .bridge, mtu := mtu,
                            txqlen := -1 } =
        ({ links := w.links ++ [{ index := w.nextIndex, name := brName, kind := .bridge,
                                  mtu := mtu, txqlen := -1 }],
           routes := w.routes, nextIndex := w.nextIndex + 1 },
         .ok { index := w.nextIndex, name := brName, kind := .bridge, mtu := mtu,
               txqlen := -1 }) := by
      simp only [linkAdd, hfresh]
    have hidx1 : findLinkByIndex
        { links := w.links ++ [{ index := w.nextIndex, name := brName, kind := .bridge,
                                 mtu := mtu, txqlen := -1 }],
          routes := w.routes, nextIndex := w.nextIndex + 1 } w.nextIndex =
        some { index := w.nextIndex, name := brName, kind := .bridge, mtu := mtu,
               txqlen := -1 } := by
      unfold findLinkByIndex
      rw [List.find?_append, hWnone]
      simp
    have hupd : updateLink
        { links := w.links ++ [{ index := w.nextIndex, name := brName, kind := .bridge,
                                 mtu := mtu, txqlen := -1 }],
          routes := w.routes, nextIndex := w.nextIndex + 1 } w.nextIndex
        (fun x => { x with up := true }) =
        { links := w.links ++ [{ index := w.nextIndex, name := brName, kind := .bridge,
                                 mtu := mtu, txqlen := -1, up := true }],
          routes := w.routes, nextIndex := w.nextIndex + 1 } := by
      unfold updateLink
      simp only [List.map_append]
      rw [map_guard_id w.links w.nextIndex _ hne]
      simp
    have hsetup : linkSetUp
        { links := w.links ++ [{ index := w.nextIndex, name := brName, kind := .bridge,
                                 mtu := mtu, txqlen := -1 }],
          routes := w.routes, nextIndex := w.nextIndex + 1 }
        { index := w.nextIndex, name := brName, kind := .bridge, mtu := mtu,
          txqlen := -1 } =
        ({ links := w.links ++ [{ index := w.nextIndex, name := brName, kind := .bridge,
                                  mtu := mtu, txqlen := -1, up := true }],
           routes := w.routes, nextIndex := w.nextIndex + 1 }, .ok ()) := by
      simp only [linkSetUp, hidx1, hupd]
    have hfirst : ensureBridge w brName mtu =
        ({ links := w.links ++ [{ index := w.nextIndex, name := brName, kind := .bridge,
                                  mtu := mtu, txqlen := -1, up := true }],
           routes := w.routes, nextIndex := w.nextIndex + 1 },
         .ok { index := w.nextIndex, name := brName, kind := .bridge, mtu := mtu,
               txqlen := -1 }) := by
      simp only [ensureBridge, hadd, hsetup]
    have hfindUp : findLinkByName
        { links := w.links ++ [{ index := w.nextIndex, name := brName, kind := .bridge,
                                 mtu := mtu, txqlen := -1, up := true }],
          routes := w.routes, nextIndex := w.nextIndex + 1 } brName =
        some { index := w.nextIndex, name := brName, kind := .bridge, mtu := mtu,
               txqlen := -1, up := true } := by
      unfold findLinkByName
      rw [List.find?_append, hfresh']
      simp
    have hidx2 : findLinkByIndex
        { links := w.links ++ [{ index := w.nextIndex, name := brName, kind := .bridge,
                                 mtu := mtu, txqlen := -1, up := true }],
          routes := w.routes, nextIndex := w.nextIndex + 1 } w.nextIndex =
        some { index := w.nextIndex, name := brName, kind := .bridge, mtu := mtu,
               txqlen := -1, up := true } := by
      unfold findLinkByIndex
      rw [List.find?_append, hWnone]
      simp
    have hupd2 : updateLink
        { links := w.links ++ [{ index := w.nextIndex, name := brName, kind := .bridge,
                                 mtu := mtu, txqlen := -1, up := true }],
          routes := w.routes, nextIndex := w.nextIndex + 1 } w.nextIndex
        (fun x => { x with up := true }) =
        { links := w.links ++ [{ index := w.nextIndex, name := brName, kind := .bridge,
                                 mtu := mtu, txqlen := -1, up := true }],
          routes := w.routes, nextIndex := w.nextIndex + 1 } := by
      unfold updateLink
      simp only [List.map_append]
      rw [map_guard_id w.links w.nextIndex _ hne]
      simp
    have hsecond : ensureBridge
        { links := w.links ++ [{ index := w.nextIndex, name := brName, kind := .bridge,
                                 mtu := mtu, txqlen := -1, up := true }],
          routes := w.routes, nextIndex := w.nextIndex + 1 } brName mtu =
        ({ links := w.links ++ [{ index := w.nextIndex, name := brName, kind := .bridge,
                                  mtu := mtu, txqlen := -1, up := true }],
           routes := w.routes, nextIndex := w.nextIndex + 1 },
         .ok { index := w.nextIndex, name := brName, kind := .bridge, mtu := mtu,
               txqlen := -1, up := true }) := by
      simp only [ensureBridge, linkAdd, hfindUp, bridgeByName, linkByName, linkSetUp,
        bne_self_eq_false, Bool.false_eq_true, if_false, beq_self_eq_true, if_true,
        hidx2, hupd2]
    have hcount : ({ links := w.links ++ [{ index := w.nextIndex, name := brName,
                                            kind := .bridge, mtu := mtu, txqlen := -1,
                                            up := true }],
                     routes := w.routes,
                     nextIndex := w.nextIndex + 1 } : World).links.countP
        (fun l => l.name == brName) = 1 := by
      have h0 : w.links.countP (fun l => l.name == brName) = 0 := by
        rw [List.countP_eq_zero]
        exact List.find?_eq_none.mp hfresh'
      simp [List.countP_append, h0]
    refine ⟨hfirst, ?_, ?_⟩
    · rw [hfirst]
      exact hsecond
    · rw [hfirst]
      exact hcount
  · intro l hfound hnk
    have hadd : linkAdd w { index := 0, name := brName, kind := .bridge, mtu := mtu,
                            txqlen := -1 } = (w, .error .eexist) := by
      simp only [linkAdd, hfound]
    have hkind : (l.kind == LinkKind.bridge) = false := by
      simp only [beq_eq_false_iff_ne]
      exact hnk
    simp [ensureBridge, hadd, bridgeByName, linkByName, hfound, hkind]

/-- Witness for C4: idempotent creation on the empty world and the
type-mismatch failure on a veth occupying the name. -/
theorem c4_witness :
    ensureBridge {} "cni0" 1500 =
      ({ links := [{ index := 1, name := "cni0", kind := .bridge, mtu := 1500,
                     txqlen := -1, up := true }],
         routes := [], nextIndex := 2 },
       .ok { index := 1, name := "cni0", kind := .bridge, mtu := 1500, txqlen := -1 }) ∧
    ensureBridge (ensureBridge {} "cni0" 1500).1 "cni0" 1500 =
      ((ensureBridge {} "cni0" 1500).1,
       .ok { index := 1, name := "cni0", kind := .bridge, mtu := 1500, txqlen := -1,
             up := true }) ∧
    (ensureBridge {} "cni0" 1500).1.links.countP (fun l => l.name == "cni0") = 1 ∧
    ensureBridge { links := [{ index := 1, name := "cni0", kind := .veth }],
                   nextIndex := 2 } "cni0" 1500 =
      ({ links := [{ index := 1, name := "cni0", kind := .veth }], nextIndex := 2 },
       .err ("\"" ++ "cni0" ++ "\" already exists but is not a bridge")) := by
  have h := (c4_ensureBridge {} "cni0" 1500).1 ⟨by decide, by decide⟩
  have h2 := (c4_ensureBridge
      { links := [{ index := 1, name := "cni0", kind := .veth }], nextIndex := 2 }
      "cni0" 1500).2
      { index := 1, name := "cni0", kind := .veth } (by decide) (by decide)
  exact ⟨h.1, h.2.1, h.2.2, h2⟩

/-! ## Claim C5 -/

/-- Agreement of the source's route loop with the spec's route-phase
description: same final state, and success of one exactly when the other
completes. -/
theorem configRoutes_specRoutePhase (link : Link) (ifName : String) (gwd : GoIP) :
    ∀ (rs : List CniRoute) (w : World),
      (configRoutes w link ifName gwd rs).1 = (specRoutePhase w link gwd rs).1 ∧
      ((configRoutes w link ifName gwd rs).2 = .ok () ↔
        (specRoutePhase w link gwd rs).2 = true) := by
  intro rs
  induction rs with
  | nil =>
    intro w
    simp [configRoutes, specRoutePhase]
  | cons r rest ih =>
    intro w
    simp only [configRoutes, specRoutePhase]
    cases hr : routeAdd w r.Dst (match r.GW with | some g => g | none => gwd) link with
    | mk w' rres =>
      cases rres with
      | ok a => simpa using ih w'
      | error e =>
        cases e with
        | eexist => simpa [osIsExist] using ih w'
        | enoent => simp [osIsExist]
        | emsg s => simp [osIsExist]

/-- The route phase never modifies the link table. -/
theorem specRoutePhase_links (link : Link) (gwd : GoIP) :
    ∀ (rs : List CniRoute) (w : World),
      ((specRoutePhase w link gwd rs).1).links = w.links := by
  intro rs
  induction rs with
  | nil => intro w; rfl
  | cons r rest ih =>
    intro w
    simp only [specRoutePhase]
    cases hr : routeAdd w r.Dst (match r.GW with | some g => g | none => gwd) link with
    | mk w' rres =>
      have hl : w'.links = w.links := by
        have h0 := routeAdd_links w r.Dst (match r.GW with | some g => g | none => gwd) link
        rw [hr] at h0
        exact h0
      cases rres with
      | ok a => rw [ih w', hl]
      | error e =>
        cases e with
        | eexist => rw [ih w', hl]
        | enoent => exact hl
        | emsg s => exact hl

/-- C5 (confirmed): `configureInterface` treats an already-present address
(`"file exists"`) as a benign no-op — the address list is unchanged and
processing continues — and otherwise appends the IPAM address; the route loop
then behaves exactly as the spec's route phase: explicit gateway when
present, else the IPAM default, an identical existing route is tolerated and
the loop continues, and any other install failure aborts the remaining
routes. -/
theorem c5_configureInterface (w : World) (ifName : String) (res : CniResult)
    (link : Link) (hname : linkByName w ifName = .ok link)
    (hidx : findLinkByIndex w link.index = some link) :
    ((configureInterface w ifName res).1 =
        (specRoutePhase
          (if link.addrs.any (fun a => ipnetString a == ipnetString res.IP4.IP) then
            updateLink w link.index (fun x => { x with up := true })
          else
            updateLink (updateLink w link.index (fun x => { x with up := true }))
              link.index (fun x => { x with addrs := x.addrs ++ [res.IP4.IP] }))
          link res.IP4.Gateway res.IP4.Routes).1 ∧
     ((configureInterface w ifName res).2 = .ok () ↔
        (specRoutePhase
          (if link.addrs.any (fun a => ipnetString a == ipnetString res.IP4.IP) then
            updateLink w link.index (fun x => { x with up := true })
          else
            updateLink (updateLink w link.index (fun x => { x with up := true }))
              link.index (fun x => { x with addrs := x.addrs ++ [res.IP4.IP] }))
          link res.IP4.Gateway res.IP4.Routes).2 = true) ∧
     (link.addrs.any (fun a => ipnetString a == ipnetString res.IP4.IP) = true →
        findLinkByIndex ((configureInterface w ifName res).1) link.index =
          some { link with up := true }) ∧
     (link.addrs.any (fun a => ipnetString a == ipnetString res.IP4.IP) = false →
        findLinkByIndex ((configureInterface w ifName res).1) link.index =
          some { link with up := true, addrs := link.addrs ++ [res.IP4.IP] })) := by
  have hidx1 : findLinkByIndex (updateLink w link.index (fun x => { x with up := true }))
      link.index = some { link with up := true } := by
    rw [findLinkByIndex_updateLink w link.index
      (fun x => { x with up := true }) (fun x => rfl), hidx]
    rfl
  have hsetup : linkSetUp w link =
      (updateLink w link.index (fun x => { x with up := true }), .ok ()) := by
    simp only [linkSetUp, hidx]
  cases hdup : link.addrs.any (fun a => ipnetString a == ipnetString res.IP4.IP) with
  | true =>
    have haa : addrAdd (updateLink w link.index (fun x => { x with up := true })) link
        res.IP4.IP =
        (updateLink w link.index (fun x => { x with up := true }), .error .eexist) := by
      simp only [addrAdd, hidx1]
      have hany : (({ link with up := true } : Link)).addrs.any
          (fun a => ipnetString a == ipnetString res.IP4.IP) = true := hdup
      simp only [hany, if_true]
    have hcfg : configureInterface w ifName res =
        configRoutes (updateLink w link.index (fun x => { x with up := true })) link
          ifName res.IP4.Gateway res.IP4.Routes := by
      simp only [configureInterface, hname, hsetup, haa, errString]
      simp
    have hagree := configRoutes_specRoutePhase link ifName res.IP4.Gateway
      res.IP4.Routes (updateLink w link.index (fun x => { x with up := true }))
    have hlinks := specRoutePhase_links link res.IP4.Gateway res.IP4.Routes
      (updateLink w link.index (fun x => { x with up := true }))
    refine ⟨by rw [hcfg]; simpa using hagree.1, by rw [hcfg]; simpa using hagree.2,
      fun _ => ?_, fun hcontra => ?_⟩
    · have hl : ((configureInterface w ifName res).1).links =
          (updateLink w link.index (fun x => { x with up := true })).links := by
        rw [hcfg, hagree.1, hlinks]
      unfold findLinkByIndex at *
      rw [hl]
      exact hidx1
    · cases hcontra
  | false =>
    have haa : addrAdd (updateLink w link.index (fun x => { x with up := true })) link
        res.IP4.IP =
        (updateLink (updateLink w link.index (fun x => { x with up := true }))
          link.index (fun x => { x with addrs := x.addrs ++ [res.IP4.IP] }), .ok ()) := by
      simp only [addrAdd, hidx1]
      have hany : (({ link with up := true } : Link)).addrs.any
          (fun a => ipnetString a == ipnetString res.IP4.IP) = false := hdup
      simp only [hany, Bool.false_eq_true, if_false]
    have hcfg : configureInterface w ifName res =
        configRoutes
          (updateLink (updateLink w link.index (fun x => { x with up := true }))
            link.index (fun x => { x with addrs := x.addrs ++ [res.IP4.IP] }))
          link ifName res.IP4.Gateway res.IP4.Routes := by
      simp only [configureInterface, hname, hsetup, haa]
    have hidx2 : findLinkByIndex
        (updateLink (updateLink w link.index (fun x => { x with up := true }))
          link.index (fun x => { x with addrs := x.addrs ++ [res.IP4.IP] }))
        link.index =
        some { link with up := true, addrs := link.addrs ++ [res.IP4.IP] } := by
      rw [findLinkByIndex_updateLink _ link.index
        (fun x => { x with addrs := x.addrs ++ [res.IP4.IP] }) (fun x => rfl), hidx1]
      rfl
    have hagree := configRoutes_specRoutePhase link ifName res.IP4.Gateway
      res.IP4.Routes
      (updateLink (updateLink w link.index (fun x => { x with up := true }))
        link.index (fun x => { x with addrs := x.addrs ++ [res.IP4.IP] }))
    have hlinks := specRoutePhase_links link res.IP4.Gateway res.IP4.Routes
      (updateLink (updateLink w link.index (fun x => { x with up := true }))
        link.index (fun x => { x with addrs := x.addrs ++ [res.IP4.IP] }))
    refine ⟨by rw [hcfg]; simpa using hagree.1, by rw [hcfg]; simpa using hagree.2,
      fun hcontra => ?_, fun _ => ?_⟩
    · cases hcontra
    · have hl : ((configureInterface w ifName res).1).links =
          (updateLink (updateLink w link.index (fun x => { x with up := true }))
            link.index (fun x => { x with addrs := x.addrs ++ [res.IP4.IP] })).links := by
        rw [hcfg, hagree.1, hlinks]
      unfold findLinkByIndex at *
      rw [hl]
      exact hidx2

/-- Witness for C5: the interface already carries the IPAM address (benign
no-op), the first route installs with the fallback default gateway, the
duplicate second route is tolerated, the unreachable third route aborts the
loop, and the fourth route is never installed. -/
theorem c5_witness :
    findLinkByIndex ((configureInterface
        { links := [{ index := 1, name := "eth0", kind := .veth,
                      addrs := [⟨[10, 42, 0, 5], [255, 255, 0, 0]⟩] }], nextIndex := 2 }
        "eth0"
        { IP4 := { IP := ⟨[10, 42, 0, 5], [255, 255, 0, 0]⟩, Gateway := [10, 42, 0, 1],
                   Routes := [⟨⟨[0, 0, 0, 0], [0, 0, 0, 0]⟩, none⟩,
                              ⟨⟨[0, 0, 0, 0], [0, 0, 0, 0]⟩, some [10, 42, 0, 2]⟩,
                              ⟨⟨[10, 99, 0, 0], [255, 255, 0, 0]⟩, some [1, 2, 3, 4]⟩,
                              ⟨⟨[10, 100, 0, 0], [255, 255, 0, 0]⟩, none⟩] } }).1) 1 =
      some { index := 1, name := "eth0", kind := .veth, up := true,
             addrs := [⟨[10, 42, 0, 5], [255, 255, 0, 0]⟩] } ∧
    (configureInterface
        { links := [{ index := 1, name := "eth0", kind := .veth,
                      addrs := [⟨[10, 42, 0, 5], [255, 255, 0, 0]⟩] }], nextIndex := 2 }
        "eth0"
        { IP4 := { IP := ⟨[10, 42, 0, 5], [255, 255, 0, 0]⟩, Gateway := [10, 42, 0, 1],
                   Routes := [⟨⟨[0, 0, 0, 0], [0, 0, 0, 0]⟩, none⟩,
                              ⟨⟨[0, 0, 0, 0], [0, 0, 0, 0]⟩, some [10, 42, 0, 2]⟩,
                              ⟨⟨[10, 99, 0, 0], [255, 255, 0, 0]⟩, some [1, 2, 3, 4]⟩,
                              ⟨⟨[10, 100, 0, 0], [255, 255, 0, 0]⟩, none⟩] } }).2 =
      .err ("failed to add route '10.99.0.0/16 via 1.2.3.4 dev eth0': network is unreachable") ∧
    (configureInterface
        { links := [{ index := 1, name := "eth0", kind := .veth,
                      addrs := [⟨[10, 42, 0, 5], [255, 255, 0, 0]⟩] }], nextIndex := 2 }
        "eth0"
        { IP4 := { IP := ⟨[10, 42, 0, 5], [255, 255, 0, 0]⟩, Gateway := [10, 42, 0, 1],
                   Routes := [⟨⟨[0, 0, 0, 0], [0, 0, 0, 0]⟩, none⟩,
                              ⟨⟨[0, 0, 0, 0], [0, 0, 0, 0]⟩, some [10, 42, 0, 2]⟩,
                              ⟨⟨[10, 99, 0, 0], [255, 255, 0, 0]⟩, some [1, 2, 3, 4]⟩,
                              ⟨⟨[10, 100, 0, 0], [255, 255, 0, 0]⟩, none⟩] } }).1.routes =
      [⟨⟨[0, 0, 0, 0], [0, 0, 0, 0]⟩, [10, 42, 0, 1], 1⟩] := by
  have h := c5_configureInterface
      { links := [{ index := 1, name := "eth0", kind := .veth,
                    addrs := [⟨[10, 42, 0, 5], [255, 255, 0, 0]⟩] }], nextIndex := 2 }
      "eth0"
      { IP4 := { IP := ⟨[10, 42, 0, 5], [255, 255, 0, 0]⟩, Gateway := [10, 42, 0, 1],
                 Routes := [⟨⟨[0, 0, 0, 0], [0, 0, 0, 0]⟩, none⟩,
                            ⟨⟨[0, 0, 0, 0], [0, 0, 0, 0]⟩, some [10, 42, 0, 2]⟩,
                            ⟨⟨[10, 99, 0, 0], [255, 255, 0, 0]⟩, some [1, 2, 3, 4]⟩,
                            ⟨⟨[10, 100, 0, 0], [255, 255, 0, 0]⟩, none⟩] } }
      { index := 1, name := "eth0", kind := .veth,
        addrs := [⟨[10, 42, 0, 5], [255, 255, 0, 0]⟩] }
      (by decide) (by decide)
  exact ⟨h.2.2.1 (by decide), by decide, by decide⟩

/-! ## Claim C6 -/

/-- Filtering on a differing index keeps a list unchanged. -/
theorem filter_bne_id (l : List Link) (i : Nat) (h : ∀ x ∈ l, x.index ≠ i) :
    l.filter (fun x => x.index != i) = l := by
  induction l with
  | nil => rfl
  | cons a t ih =>
    have ha : (a.index != i) = true := by
      rw [bne_iff_ne]
      exact h a (List.mem_cons_self a t)
    simp only [List.filter_cons, ha, if_true]
    rw [ih (fun x hx => h x (List.mem_cons_of_mem _ hx))]

/-- Behaviour of the modelled CNI `SetupVeth` on fresh names: the container
end is created and brought up in the container namespace, the host end is
moved into the host namespace under a fresh index, and the returned handle
still carries the stale container-side index. -/
theorem ipSetupVeth_eq (s : NSWorld) (ifName : String) (mtu : Int)
    (hc : findLinkByName s.cont ifName = none)
    (hh : findLinkByName s.cont ("veth" ++ toString (s.cont.nextIndex + 1)) = none)
    (hneq : ifName ≠ "veth" ++ toString (s.cont.nextIndex + 1))
    (hcw : ∀ l ∈ s.cont.links, l.index < s.cont.nextIndex)
    (hhn : findLinkByName s.host ("veth" ++ toString (s.cont.nextIndex + 1)) = none) :
    ipSetupVeth s ifName mtu =
      (⟨{ links := s.cont.links ++ [{ index := s.cont.nextIndex, name := ifName,
                                      kind := .veth, mtu := mtu, up := true }],
          routes := s.cont.routes, nextIndex := s.cont.nextIndex + 2 },
         { links := s.host.links ++ [{ index := s.host.nextIndex,
                                       name := "veth" ++ toString (s.cont.nextIndex + 1),
                                       kind := .veth, mtu := mtu }],
           routes := s.host.routes, nextIndex := s.host.nextIndex + 1 }⟩,
       .ok { index := s.cont.nextIndex + 1,
             name := "veth" ++ toString (s.cont.nextIndex + 1), kind := .veth,
             mtu := mtu }) := by
  have hh' : s.cont.links.find?
      (fun l => l.name == ("veth" ++ toString (s.cont.nextIndex + 1))) = none := hh
  have hne : ∀ x ∈ s.cont.links, x.index ≠ s.cont.nextIndex := by
    intro x hx
    have := hcw x hx
    omega
  have hadd1 : linkAdd s.cont { index := 0, name := ifName, kind := .veth, mtu := mtu } =
      ({ links := s.cont.links ++ [{ index := s.cont.nextIndex, name := ifName,
                                     kind := .veth, mtu := mtu }],
         routes := s.cont.routes, nextIndex := s.cont.nextIndex + 1 },
       .ok { index := s.cont.nextIndex, name := ifName, kind := .veth, mtu := mtu }) := by
    simp only [linkAdd, hc]
  have hfc1 : findLinkByName
      { links := s.cont.links ++ [{ index := s.cont.nextIndex, name := ifName,
                                    kind := .veth, mtu := mtu }],
        routes := s.cont.routes, nextIndex := s.cont.nextIndex + 1 }
      ("veth" ++ toString (s.cont.nextIndex + 1)) = none := by
    unfold findLinkByName
    rw [List.find?_append, hh']
    have : (ifName == ("veth" ++ toString (s.cont.nextIndex + 1))) = false := by
      rw [beq_eq_false_iff_ne]
      exact hneq
    simp [this]
  have hadd2 : linkAdd
      { links := s.cont.links ++ [{ index := s.cont.nextIndex, name := ifName,
                                    kind := .veth, mtu := mtu }],
        routes := s.cont.routes, nextIndex := s.cont.nextIndex + 1 }
      { index := 0, name := "veth" ++ toString (s.cont.nextIndex + 1), kind := .veth,
        mtu := mtu } =
      ({ links := (s.cont.links ++ [{ index := s.cont.nextIndex, name := ifName,
                                      kind := .veth, mtu := mtu }]) ++
                  [{ index := s.cont.nextIndex + 1,
                     name := "veth" ++ toString (s.cont.nextIndex + 1), kind := .veth,
                     mtu := mtu }],
         routes := s.cont.routes, nextIndex := s.cont.nextIndex + 2 },
       .ok { index := s.cont.nextIndex + 1,
             name := "veth" ++ toString (s.cont.nextIndex + 1), kind := .veth,
             mtu := mtu }) := by
    simp only [linkAdd, hfc1]
  have hidxcv : findLinkByIndex
      { links := (s.cont.links ++ [{ index := s.cont.nextIndex, name := ifName,
                                     kind := .veth, mtu := mtu }]) ++
                 [{ index := s.cont.nextIndex + 1,
                    name := "veth" ++ toString (s.cont.nextIndex + 1), kind := .veth,
                    mtu := mtu }],
        routes := s.cont.routes, nextIndex := s.cont.nextIndex + 2 }
      s.cont.nextIndex =
      some { index := s.cont.nextIndex, name := ifName, kind := .veth, mtu := mtu } := by
    unfold findLinkByIndex
    rw [List.find?_append, List.find?_append]
    rw [show s.cont.links.find? (fun l => l.index == s.cont.nextIndex) = none by
      rw [List.find?_eq_none]
      intro x hx
      simp only [beq_iff_eq]
      exact hne x hx]
    simp
  have hupd : updateLink
      { links := (s.cont.links ++ [{ index := s.cont.nextIndex, name := ifName,
                                     kind := .veth, mtu := mtu }]) ++
                 [{ index := s.cont.nextIndex + 1,
                    name := "veth" ++ toString (s.cont.nextIndex + 1), kind := .veth,
                    mtu := mtu }],
        routes := s.cont.routes, nextIndex := s.cont.nextIndex + 2 }
      s.cont.nextIndex (fun x => { x with up := true }) =
      { links := (s.cont.links ++ [{ index := s.cont.nextIndex, name := ifName,
                                     kind := .veth, mtu := mtu, up := true }]) ++
                 [{ index := s.cont.nextIndex + 1,
                    name := "veth" ++ toString (s.cont.nextIndex + 1), kind := .veth,
                    mtu := mtu }],
        routes := s.cont.routes, nextIndex := s.cont.nextIndex + 2 } := by
    unfold updateLink
    simp only [List.map_append]
    rw [map_guard_id s.cont.links s.cont.nextIndex _ hne]
    have h1 : (s.cont.nextIndex + 1 == s.cont.nextIndex) = false := by
      rw [beq_eq_false_iff_ne]
      omega
    simp [h1]
  have hfilter : ((s.cont.links ++ ([{ index := s.cont.nextIndex, name := ifName,
                                       kind := .veth, mtu := mtu, up := true }] : List Link)) ++
                  ([{ index := s.cont.nextIndex + 1,
                      name := "veth" ++ toString (s.cont.nextIndex + 1), kind := .veth,
                      mtu := mtu }] : List Link)).filter
        (fun l => l.index != s.cont.nextIndex + 1) =
      s.cont.links ++ [{ index := s.cont.nextIndex, name := ifName, kind := .veth,
                         mtu := mtu, up := true }] := by
    rw [List.filter_append, List.filter_append]
    rw [filter_bne_id s.cont.links (s.cont.nextIndex + 1)
      (fun x hx => by have := hcw x hx; omega)]
    have h1 : (s.cont.nextIndex != s.cont.nextIndex + 1) = true := by
      rw [bne_iff_ne]
      omega
    simp [h1]
  have hadd3 : linkAdd s.host
      { index := 0, name := "veth" ++ toString (s.cont.nextIndex + 1), kind := .veth,
        mtu := mtu } =
      ({ links := s.host.links ++ [{ index := s.host.nextIndex,
                                     name := "veth" ++ toString (s.cont.nextIndex + 1),
                                     kind := .veth, mtu := mtu }],
         routes := s.host.routes, nextIndex := s.host.nextIndex + 1 },
       .ok { index := s.host.nextIndex,
             name := "veth" ++ toString (s.cont.nextIndex + 1), kind := .veth,
             mtu := mtu }) := by
    simp only [linkAdd, hhn]
  simp only [ipSetupVeth, hadd1, hadd2, linkSetUp, hidxcv, hupd, hfilter, hadd3]

/-- C6 (confirmed): after the namespace-scoped creation returns, `setupVeth`
resolves the host-side endpoint again by name — the handle returned from
inside the namespace carries the stale pre-move index — and then, in strict
sequence, enslaves it to the bridge and sets hairpin mode; a failure at any
step returns an error immediately, skipping the later steps and undoing none
of the earlier ones (on an enslave failure the created veth remains, with no
master and hairpin never set). -/
theorem c6_setupVeth (s : NSWorld) (br : Link) (ifName : String) (mtu : Int)
    (hp : Bool) :
    ((findLinkByName s.cont ifName = none ∧
      findLinkByName s.cont ("veth" ++ toString (s.cont.nextIndex + 1)) = none ∧
      ifName ≠ "veth" ++ toString (s.cont.nextIndex + 1) ∧
      (∀ l ∈ s.cont.links, l.index < s.cont.nextIndex) ∧
      findLinkByName s.host ("veth" ++ toString (s.cont.nextIndex + 1)) = none ∧
      findLinkByIndex s.host br.index = some br ∧ br.kind = .bridge ∧
      (∀ l ∈ s.host.links, l.index < s.host.nextIndex)) →
      (setupVeth s br ifName mtu hp =
        (⟨{ links := s.cont.links ++ [{ index := s.cont.nextIndex, name := ifName,
                                        kind := .veth, mtu := mtu, up := true }],
            routes := s.cont.routes, nextIndex := s.cont.nextIndex + 2 },
           { links := s.host.links ++
               [{ index := s.host.nextIndex,
                  name := "veth" ++ toString (s.cont.nextIndex + 1), kind := .veth,
                  mtu := mtu, master := some br.index, hairpin := hp }],
             routes := s.host.routes, nextIndex := s.host.nextIndex + 1 }⟩, .ok ()) ∧
       ∀ l ∈ s.host.links, l ∈ (setupVeth s br ifName mtu hp).1.host.links)) ∧
    (∀ l0, findLinkByName s.cont ifName = some l0 →
      setupVeth s br ifName mtu hp = (s, .err "file exists")) ∧
    ((findLinkByName s.cont ifName = none ∧
      findLinkByName s.cont ("veth" ++ toString (s.cont.nextIndex + 1)) = none ∧
      ifName ≠ "veth" ++ toString (s.cont.nextIndex + 1) ∧
      (∀ l ∈ s.cont.links, l.index < s.cont.nextIndex) ∧
      findLinkByName s.host ("veth" ++ toString (s.cont.nextIndex + 1)) = none ∧
      findLinkByIndex s.host br.index = none ∧ br.index ≠ s.host.nextIndex ∧
      (∀ l ∈ s.host.links, l.index < s.host.nextIndex)) →
      setupVeth s br ifName mtu hp =
        (⟨{ links := s.cont.links ++ [{ index := s.cont.nextIndex, name := ifName,
                                        kind := .veth, mtu := mtu, up := true }],
            routes := s.cont.routes, nextIndex := s.cont.nextIndex + 2 },
           { links := s.host.links ++
               [{ index := s.host.nextIndex,
                  name := "veth" ++ toString (s.cont.nextIndex + 1), kind := .veth,
                  mtu := mtu }],
             routes := s.host.routes, nextIndex := s.host.nextIndex + 1 }⟩,
         .err ("failed to connect \"" ++ ("veth" ++ toString (s.cont.nextIndex + 1))
               ++ "\" to bridge " ++ br.name ++ ": " ++ errString .enoent))) := by
  refine ⟨?_, ?_, ?_⟩
  · rintro ⟨hc, hh, hneq, hcw, hhn, hbr, hbk, hwf⟩
    have hip := ipSetupVeth_eq s ifName mtu hc hh hneq hcw hhn
    have hhn' : s.host.links.find?
        (fun l => l.name == ("veth" ++ toString (s.cont.nextIndex + 1))) = none := hhn
    have hWhost : s.host.links.find? (fun l => l.index == s.host.nextIndex) = none := by
      rw [List.find?_eq_none]
      intro x hx
      simp only [beq_iff_eq]
      have := hwf x hx
      omega
    have hneHost : ∀ x ∈ s.host.links, x.index ≠ s.host.nextIndex := by
      intro x hx
      have := hwf x hx
      omega
    have hlook : linkByName
        { links := s.host.links ++
            [{ index := s.host.nextIndex,
               name := "veth" ++ toString (s.cont.nextIndex + 1), kind := .veth,
               mtu := mtu }],
          routes := s.host.routes, nextIndex := s.host.nextIndex + 1 }
        ("veth" ++ toString (s.cont.nextIndex + 1)) =
        .ok { index := s.host.nextIndex,
              name := "veth" ++ toString (s.cont.nextIndex + 1), kind := .veth,
              mtu := mtu } := by
      simp only [linkByName]
      unfold findLinkByName
      rw [List.find?_append, hhn']
      simp
    have hidxhv : findLinkByIndex
        { links := s.host.links ++
            [{ index := s.host.nextIndex,
               name := "veth" ++ toString (s.cont.nextIndex + 1), kind := .veth,
               mtu := mtu }],
          routes := s.host.routes, nextIndex := s.host.nextIndex + 1 }
        s.host.nextIndex =
        some { index := s.host.nextIndex,
               name := "veth" ++ toString (s.cont.nextIndex + 1), kind := .veth,
               mtu := mtu } := by
      unfold findLinkByIndex
      rw [List.find?_append, hWhost]
      simp
    have hidxbr : findLinkByIndex
        { links := s.host.links ++
            [{ index := s.host.nextIndex,
               name := "veth" ++ toString (s.cont.nextIndex + 1), kind := .veth,
               mtu := mtu }],
          routes := s.host.routes, nextIndex := s.host.nextIndex + 1 }
        br.index = some br := by
      unfold findLinkByIndex
      rw [List.find?_append]
      rw [show s.host.links.find? (fun l => l.index == br.index) = some br from hbr]
      rfl
    have hupdM : updateLink
        { links := s.host.links ++
            [{ index := s.host.nextIndex,
               name := "veth" ++ toString (s.cont.nextIndex + 1), kind := .veth,
               mtu := mtu }],
          routes := s.host.routes, nextIndex := s.host.nextIndex + 1 }
        s.host.nextIndex (fun x => { x with master := some br.index }) =
        { links := s.host.links ++
            [{ index := s.host.nextIndex,
               name := "veth" ++ toString (s.cont.nextIndex + 1), kind := .veth,
               mtu := mtu, master := some br.index }],
          routes := s.host.routes, nextIndex := s.host.nextIndex + 1 } := by
      unfold updateLink
      simp only [List.map_append]
      rw [map_guard_id s.host.links s.host.nextIndex _ hneHost]
      simp
    have hmaster : linkSetMaster
        { links := s.host.links ++
            [{ index := s.host.nextIndex,
               name := "veth" ++ toString (s.cont.nextIndex + 1), kind := .veth,
               mtu := mtu }],
          routes := s.host.routes, nextIndex := s.host.nextIndex + 1 }
        { index := s.host.nextIndex,
          name := "veth" ++ toString (s.cont.nextIndex + 1), kind := .veth,
          mtu := mtu } br =
        ({ links := s.host.links ++
             [{ index := s.host.nextIndex,
                name := "veth" ++ toString (s.cont.nextIndex + 1), kind := .veth,
                mtu := mtu, master := some br.index }],
           routes := s.host.routes, nextIndex := s.host.nextIndex + 1 }, .ok ()) := by
      simp only [linkSetMaster, hidxhv, hidxbr, hbk]
      simp [hupdM]
    have hidxhv2 : findLinkByIndex
        { links := s.host.links ++
            [{ index := s.host.nextIndex,
               name := "veth" ++ toString (s.cont.nextIndex + 1), kind := .veth,
               mtu := mtu, master := some br.index }],
          routes := s.host.routes, nextIndex := s.host.nextIndex + 1 }
        s.host.nextIndex =
        some { index := s.host.nextIndex,
               name := "veth" ++ toString (s.cont.nextIndex + 1), kind := .veth,
               mtu := mtu, master := some br.index } := by
      unfold findLinkByIndex
      rw [List.find?_append, hWhost]
      simp
    have hupdH : updateLink
        { links := s.host.links ++
            [{ index := s.host.nextIndex,
               name := "veth" ++ toString (s.cont.nextIndex + 1), kind := .veth,
               mtu := mtu, master := some br.index }],
          routes := s.host.routes, nextIndex := s.host.nextIndex + 1 }
        s.host.nextIndex (fun x => { x with hairpin := hp }) =
        { links := s.host.links ++
            [{ index := s.host.nextIndex,
               name := "veth" ++ toString (s.cont.nextIndex + 1), kind := .veth,
               mtu := mtu, master := some br.index, hairpin := hp }],
          routes := s.host.routes, nextIndex := s.host.nextIndex + 1 } := by
      unfold updateLink
      simp only [List.map_append]
      rw [map_guard_id s.host.links s.host.nextIndex _ hneHost]
      simp
    have hhair : linkSetHairpin
        { links := s.host.links ++
            [{ index := s.host.nextIndex,
               name := "veth" ++ toString (s.cont.nextIndex + 1), kind := .veth,
               mtu := mtu, master := some br.index }],
          routes := s.host.routes, nextIndex := s.host.nextIndex + 1 }
        { index := s.host.nextIndex,
          name := "veth" ++ toString (s.cont.nextIndex + 1), kind := .veth,
          mtu := mtu } hp =
        ({ links := s.host.links ++
             [{ index := s.host.nextIndex,
                name := "veth" ++ toString (s.cont.nextIndex + 1), kind := .veth,
                mtu := mtu, master := some br.index, hairpin := hp }],
           routes := s.host.routes, nextIndex := s.host.nextIndex + 1 }, .ok ()) := by
      simp only [linkSetHairpin, hidxhv2, hupdH]
    have hmain : setupVeth s br ifName mtu hp =
        (⟨{ links := s.cont.links ++ [{ index := s.cont.nextIndex, name := ifName,
                                        kind := .veth, mtu := mtu, up := true }],
            routes := s.cont.routes, nextIndex := s.cont.nextIndex + 2 },
           { links := s.host.links ++
               [{ index := s.host.nextIndex,
                  name := "veth" ++ toString (s.cont.nextIndex + 1), kind := .veth,
                  mtu := mtu, master := some br.index, hairpin := hp }],
             routes := s.host.routes, nextIndex := s.host.nextIndex + 1 }⟩,
         .ok ()) := by
      simp only [setupVeth, hip, hlook, hmaster, hhair]
    refine ⟨hmain, ?_⟩
    intro l hl
    rw [hmain]
    exact List.mem_append_left _ hl
  · intro l0 h0
    simp [setupVeth, ipSetupVeth, linkAdd, h0, errString]
  · rintro ⟨hc, hh, hneq, hcw, hhn, hbrN, hbrne, hwf⟩
    have hip := ipSetupVeth_eq s ifName mtu hc hh hneq hcw hhn
    have hhn' : s.host.links.find?
        (fun l => l.name == ("veth" ++ toString (s.cont.nextIndex + 1))) = none := hhn
    have hWhost : s.host.links.find? (fun l => l.index == s.host.nextIndex) = none := by
      rw [List.find?_eq_none]
      intro x hx
      simp only [beq_iff_eq]
      have := hwf x hx
      omega
    have hlook : linkByName
        { links := s.host.links ++
            [{ index := s.host.nextIndex,
               name := "veth" ++ toString (s.cont.nextIndex + 1), kind := .veth,
               mtu := mtu }],
          routes := s.host.routes, nextIndex := s.host.nextIndex + 1 }
        ("veth" ++ toString (s.cont.nextIndex + 1)) =
        .ok { index := s.host.nextIndex,
              name := "veth" ++ toString (s.cont.nextIndex + 1), kind := .veth,
              mtu := mtu } := by
      simp only [linkByName]
      unfold findLinkByName
      rw [List.find?_append, hhn']
      simp
    have hidxhv : findLinkByIndex
        { links := s.host.links ++
            [{ index := s.host.nextIndex,
               name := "veth" ++ toString (s.cont.nextIndex + 1), kind := .veth,
               mtu := mtu }],
          routes := s.host.routes, nextIndex := s.host.nextIndex + 1 }
        s.host.nextIndex =
        some { index := s.host.nextIndex,
               name := "veth" ++ toString (s.cont.nextIndex + 1), kind := .veth,
               mtu := mtu } := by
      unfold findLinkByIndex
      rw [List.find?_append, hWhost]
      simp
    have hidxbrN : findLinkByIndex
        { links := s.host.links ++
            [{ index := s.host.nextIndex,
               name := "veth" ++ toString (s.cont.nextIndex + 1), kind := .veth,
               mtu := mtu }],
          routes := s.host.routes, nextIndex := s.host.nextIndex + 1 }
        br.index = none := by
      unfold findLinkByIndex
      rw [List.find?_append]
      rw [show s.host.links.find? (fun l => l.index == br.index) = none from hbrN]
      have hne2 : (s.host.nextIndex == br.index) = false := by
        rw [beq_eq_false_iff_ne]
        intro he
        exact hbrne he.symm
      simp [hne2]
    have hmasterN : linkSetMaster
        { links := s.host.links ++
            [{ index := s.host.nextIndex,
               name := "veth" ++ toString (s.cont.nextIndex + 1), kind := .veth,
               mtu := mtu }],
          routes := s.host.routes, nextIndex := s.host.nextIndex + 1 }
        { index := s.host.nextIndex,
          name := "veth" ++ toString (s.cont.nextIndex + 1), kind := .veth,
          mtu := mtu } br =
        ({ links := s.host.links ++
             [{ index := s.host.nextIndex,
                name := "veth" ++ toString (s.cont.nextIndex + 1), kind := .veth,
                mtu := mtu }],
           routes := s.host.routes, nextIndex := s.host.nextIndex + 1 },
         .error .enoent) := by
      simp only [linkSetMaster, hidxhv, hidxbrN]
    simp only [setupVeth, hip, hlook, hmasterN]

/-- Witness for C6: a successful run from an empty container namespace into a
host namespace holding the bridge (index 1) and a bystander device whose index
equals the stale pre-move index (2) — the bystander is untouched, the
re-resolved veth (fresh index 3) gets master and hairpin — plus the immediate
abort when the container interface name is already taken. -/
theorem c6_witness :
    setupVeth
        ⟨{}, { links := [{ index := 1, name := "cni0", kind := .bridge, mtu := 1500,
                           txqlen := -1, up := true },
                         { index := 2, name := "eth9" }],
               nextIndex := 3 }⟩
        { index := 1, name := "cni0", kind := .bridge, mtu := 1500, txqlen := -1,
          up := true }
        "eth0" 1500 true =
      (⟨{ links := [{ index := 1, name := "eth0", kind := .veth, mtu := 1500,
                      up := true }],
          routes := [], nextIndex := 3 },
         { links := [{ index := 1, name := "cni0", kind := .bridge, mtu := 1500,
                       txqlen := -1, up := true },
                     { index := 2, name := "eth9" },
                     { index := 3, name := "veth2", kind := .veth, mtu := 1500,
                       master := some 1, hairpin := true }],
           routes := [], nextIndex := 4 }⟩, .ok ()) ∧
    ({ index := 2, name := "eth9" } : Link) ∈
      (setupVeth
        ⟨{}, { links := [{ index := 1, name := "cni0", kind := .bridge, mtu := 1500,
                           txqlen := -1, up := true },
                         { index := 2, name := "eth9" }],
               nextIndex := 3 }⟩
        { index := 1, name := "cni0", kind := .bridge, mtu := 1500, txqlen := -1,
          up := true }
        "eth0" 1500 true).1.host.links ∧
    setupVeth
        ⟨{ links := [{ index := 1, name := "eth0", kind := .veth }], nextIndex := 2 },
         { links := [{ index := 1, name := "cni0", kind := .bridge, mtu := 1500,
                       txqlen := -1, up := true }], nextIndex := 2 }⟩
        { index := 1, name := "cni0", kind := .bridge, mtu := 1500, txqlen := -1,
          up := true }
        "eth0" 1500 true =
      (⟨{ links := [{ index := 1, name := "eth0", kind := .veth }], nextIndex := 2 },
         { links := [{ index := 1, name := "cni0", kind := .bridge, mtu := 1500,
                       txqlen := -1, up := true }], nextIndex := 2 }⟩,
       .err "file exists") := by
  have h := c6_setupVeth
      ⟨{}, { links := [{ index := 1, name := "cni0", kind := .bridge, mtu := 1500,
                         txqlen := -1, up := true },
                       { index := 2, name := "eth9" }],
             nextIndex := 3 }⟩
      { index := 1, name := "cni0", kind := .bridge, mtu := 1500, txqlen := -1,
        up := true }
      "eth0" 1500 true
  obtain ⟨ha, hb⟩ := h.1
    ⟨by decide, by decide, by decide, by decide, by decide, by decide, rfl, by decide⟩
  have h2 := c6_setupVeth
      ⟨{ links := [{ index := 1, name := "eth0", kind := .veth }], nextIndex := 2 },
       { links := [{ index := 1, name := "cni0", kind := .bridge, mtu := 1500,
                     txqlen := -1, up := true }], nextIndex := 2 }⟩
      { index := 1, name := "cni0", kind := .bridge, mtu := 1500, txqlen := -1,
        up := true }
      "eth0" 1500 true
  exact ⟨ha, hb { index := 2, name := "eth9" } (by decide),
    h2.2.1 { index := 1, name := "eth0", kind := .veth } (by decide)⟩

end Rcb
